import Mathlib

/-!
# WinCore: string conversion, window-class registry and DPI queries

A shallow embedding of `Src/Utils/Convertor.hpp`, `Src/Core/WinClass.cpp`,
`Src/Core/WinDef.hpp` and `Src/Core/Platform.cpp`.

* A `std::string` is a list of bytes and a `std::wstring` a list of 16-bit code units, both
  written as `List Nat`; a string may hold NUL characters.
* A thrown `std::runtime_error` is the `Except.error` carrying its message.
* Operating-system entry points are not part of the repository.  The functions that call them
  take them as a record of functions (`Codec`, `Win32`), and the records `stdCodec` and
  `classTable` give the documented behaviour of the Win32 calls that the claims speak of; what
  is proved about the class table is proved for every way the system may identify classes.
-/

namespace WinCore

/-! ## Machine integers -/

/-- Value of `static_cast<int>(n)` for a `size_t` value `n`: `n` modulo `2^32`, read as a signed
32-bit number. -/
def toInt32 (n : Nat) : Int :=
  if n % 2 ^ 32 < 2 ^ 31 then ((n % 2 ^ 32 : Nat) : Int) else ((n % 2 ^ 32 : Nat) : Int) - 2 ^ 32

/-- Value of `static_cast<uint32_t>(i)` for a signed value `i`: `i` modulo `2^32`. -/
def toUInt32 (i : Int) : Nat :=
  (i % 2 ^ 32).toNat

/-! ## The UTF-8 / UTF-16 codec (RFC 3629, RFC 2781) -/

/-- Unicode scalar values: code points below `0x110000` that are not surrogates. -/
def IsScalar (c : Nat) : Prop :=
  c < 0xD800 ∨ (0xE000 ≤ c ∧ c < 0x110000)

instance (c : Nat) : Decidable (IsScalar c) := by
  unfold IsScalar; infer_instance

/-- UTF-8 bytes of one code point. -/
def utf8EncodeChar (c : Nat) : List Nat :=
  if c < 0x80 then [c]
  else if c < 0x800 then [0xC0 + c / 64, 0x80 + c % 64]
  else if c < 0x10000 then [0xE0 + c / 4096, 0x80 + c / 64 % 64, 0x80 + c % 64]
  else [0xF0 + c / 262144, 0x80 + c / 4096 % 64, 0x80 + c / 64 % 64, 0x80 + c % 64]

/-- UTF-8 bytes of a list of code points. -/
def utf8Encode : List Nat → List Nat
  | [] => []
  | c :: cs => utf8EncodeChar c ++ utf8Encode cs

/-- Continuation byte `10xxxxxx`. -/
def isCont (b : Nat) : Bool :=
  0x80 ≤ b && b < 0xC0

/-- Strict decoding of the first UTF-8 sequence of a byte string: the code point and the bytes
after it, or `none` when the string does not start with a well-formed sequence (truncated,
overlong, surrogate, above `0x10FFFF`, or a byte that is no lead byte). -/
def utf8DecodeChar : List Nat → Option (Nat × List Nat)
  | [] => none
  | b0 :: r =>
    if b0 < 0x80 then some (b0, r)
    else if b0 < 0xC2 then none
    else if b0 < 0xE0 then
      match r with
      | b1 :: r1 =>
        if isCont b1 then some ((b0 - 0xC0) * 64 + (b1 - 0x80), r1) else none
      | _ => none
    else if b0 < 0xF0 then
      match r with
      | b1 :: b2 :: r2 =>
        let c := (b0 - 0xE0) * 4096 + (b1 - 0x80) * 64 + (b2 - 0x80)
        if isCont b1 && isCont b2 && decide (0x800 ≤ c) && !(decide (0xD800 ≤ c) && decide (c < 0xE000))
        then some (c, r2) else none
      | _ => none
    else if b0 < 0xF5 then
      match r with
      | b1 :: b2 :: b3 :: r3 =>
        let c := (b0 - 0xF0) * 262144 + (b1 - 0x80) * 4096 + (b2 - 0x80) * 64 + (b3 - 0x80)
        if isCont b1 && isCont b2 && isCont b3 && decide (0x10000 ≤ c) && decide (c < 0x110000)
        then some (c, r3) else none
      | _ => none
    else none

/-- Decoding of a byte string into code points, a byte that starts no well-formed sequence giving
U+FFFD (the replacement the Win32 conversion makes when called without `MB_ERR_INVALID_CHARS`).
The first argument bounds the number of steps; `utf8Decode` passes the length. -/
def utf8DecodeFuel : Nat → List Nat → List Nat
  | 0, _ => []
  | _ + 1, [] => []
  | fuel + 1, b :: r =>
    match utf8DecodeChar (b :: r) with
    | some (c, rest) => c :: utf8DecodeFuel fuel rest
    | none => 0xFFFD :: utf8DecodeFuel fuel r

/-- Code points of a byte string. -/
def utf8Decode (s : List Nat) : List Nat :=
  utf8DecodeFuel s.length s

/-- Well-formedness check of a byte string, by the same steps as `utf8DecodeFuel`. -/
def utf8ValidFuel : Nat → List Nat → Bool
  | _, [] => true
  | 0, _ :: _ => false
  | fuel + 1, b :: r =>
    match utf8DecodeChar (b :: r) with
    | some (_, rest) => utf8ValidFuel fuel rest
    | none => false

/-- A valid UTF-8 narrow string: a concatenation of well-formed UTF-8 sequences. -/
def IsValidUTF8 (s : List Nat) : Prop :=
  utf8ValidFuel s.length s = true

instance (s : List Nat) : Decidable (IsValidUTF8 s) := by
  unfold IsValidUTF8; infer_instance

/-- UTF-16 code units of one code point. -/
def utf16EncodeChar (c : Nat) : List Nat :=
  if c < 0x10000 then [c]
  else [0xD800 + (c - 0x10000) / 1024, 0xDC00 + (c - 0x10000) % 1024]

/-- UTF-16 code units of a list of code points. -/
def utf16Encode : List Nat → List Nat
  | [] => []
  | c :: cs => utf16EncodeChar c ++ utf16Encode cs

/-- Strict decoding of the first code point of a UTF-16 string: a unit outside the surrogate
range, or a high surrogate followed by a low one. -/
def utf16DecodeChar : List Nat → Option (Nat × List Nat)
  | [] => none
  | u0 :: r =>
    if u0 < 0xD800 then some (u0, r)
    else if u0 < 0xDC00 then
      match r with
      | u1 :: r1 =>
        if decide (0xDC00 ≤ u1) && decide (u1 < 0xE000)
        then some (0x10000 + (u0 - 0xD800) * 1024 + (u1 - 0xDC00), r1) else none
      | [] => none
    else if u0 < 0xE000 then none
    else if u0 < 0x10000 then some (u0, r)
    else none

/-- Decoding of a UTF-16 string into code points, an unpaired surrogate giving U+FFFD. -/
def utf16DecodeFuel : Nat → List Nat → List Nat
  | 0, _ => []
  | _ + 1, [] => []
  | fuel + 1, u :: r =>
    match utf16DecodeChar (u :: r) with
    | some (c, rest) => c :: utf16DecodeFuel fuel rest
    | none => 0xFFFD :: utf16DecodeFuel fuel r

/-- Code points of a UTF-16 string. -/
def utf16Decode (w : List Nat) : List Nat :=
  utf16DecodeFuel w.length w

/-- Well-formedness check of a UTF-16 string. -/
def utf16ValidFuel : Nat → List Nat → Bool
  | _, [] => true
  | 0, _ :: _ => false
  | fuel + 1, u :: r =>
    match utf16DecodeChar (u :: r) with
    | some (_, rest) => utf16ValidFuel fuel rest
    | none => false

/-- A valid UTF-16 wide string: 16-bit units in which every surrogate is paired. -/
def IsValidUTF16 (w : List Nat) : Prop :=
  utf16ValidFuel w.length w = true

instance (w : List Nat) : Decidable (IsValidUTF16 w) := by
  unfold IsValidUTF16; infer_instance

/-! ## Convertor.hpp -/

deriving instance DecidableEq for Except

/-- The two platform conversion entry points for code page `CP_UTF8` and flags `0`.  The
arguments are the source string (the characters behind the `c_str()` pointer), the source length
argument (an `int`) and the capacity of the destination buffer (`0` with a null buffer for the
size query); the result is the returned `int` and the characters written to the buffer. -/
structure Codec where
  WideCharToMultiByte : List Nat → Int → Nat → Int × List Nat
  MultiByteToWideChar : List Nat → Int → Nat → Int × List Nat

/-- Contents of a buffer `buf` after the platform wrote `out` at its start; a write never goes
past the capacity that was passed. -/
def writeInto (buf out : List Nat) : List Nat :=
  out.take buf.length ++ buf.drop out.length

/-- Message of the error thrown by `ToUTF8`. -/
def errToUTF8 : String := "Failed to convert wide string to UTF-8."

/-- Message of the error thrown by `ToWString`. -/
def errToWString : String := "Failed to convert UTF-8 string to wide string."

/-- Embedding of `Convertor::ToUTF8`. -/
def ToUTF8 (P : Codec) (wideString : List Nat) : Except String (List Nat) :=
  if wideString.isEmpty then .ok []
  else
    let size_needed := (P.WideCharToMultiByte wideString (toInt32 wideString.length) 0).1
    if size_needed ≤ 0 then .error errToUTF8
    else
      let utf8String := List.replicate size_needed.toNat 0
      .ok (writeInto utf8String
        (P.WideCharToMultiByte wideString (toInt32 wideString.length) size_needed.toNat).2)

/-- Embedding of `Convertor::ToWString`. -/
def ToWString (P : Codec) (utf8String : List Nat) : Except String (List Nat) :=
  if utf8String.isEmpty then .ok []
  else
    let size_needed := (P.MultiByteToWideChar utf8String (toInt32 utf8String.length) 0).1
    if size_needed ≤ 0 then .error errToWString
    else
      let wideString := List.replicate size_needed.toNat 0
      .ok (writeInto wideString
        (P.MultiByteToWideChar utf8String (toInt32 utf8String.length) size_needed.toNat).2)

/-- The characters a conversion call reads: `cch` characters from the pointer when `cch` is
positive, the characters up to and including the terminating NUL when it is negative. -/
def sourceChars (src : List Nat) (cch : Int) : List Nat :=
  if cch < 0 then src.takeWhile (fun x => x ≠ 0) ++ [0] else src.take cch.toNat

/-- Result of a conversion call whose complete output is `out`: failure (`0`) for an empty
source, for an output that does not fit an `int` and for a destination that is too small;
otherwise the output length, the output being written when a destination was given. -/
def convResult (cch : Int) (out : List Nat) (cap : Nat) : Int × List Nat :=
  if cch = 0 then (0, [])
  else if 2 ^ 31 ≤ out.length then (0, [])
  else if cap = 0 then ((out.length : Int), [])
  else if cap < out.length then (0, out.take cap)
  else ((out.length : Int), out)

/-- The platform conversion as the standard UTF-8/UTF-16 codec. -/
def stdCodec : Codec where
  WideCharToMultiByte := fun src cch cap =>
    convResult cch (utf8Encode (utf16Decode (sourceChars src cch))) cap
  MultiByteToWideChar := fun src cch cap =>
    convResult cch (utf16Encode (utf8Decode (sourceChars src cch))) cap

/-! ## WinDef.hpp and WinClass.cpp -/

/-- The `c_str()` view that a Win32 call has of a wide string: the characters before the first
NUL. -/
def c_str (w : List Nat) : List Nat :=
  w.takeWhile (fun x => x ≠ 0)

/-- The native class descriptor `WNDCLASS` with the fields `Register` sets; handles and
procedures are numbers, `0` being the null handle. -/
structure WNDCLASS where
  lpfnWndProc : Nat
  hInstance : Nat
  lpszClassName : List Nat
  style : Nat
  hCursor : Nat
deriving DecidableEq, Repr

/-- The Win32 entry points used by the class registry, over an operating-system state `σ`:
`LoadCursor` (module, cursor resource) returning a cursor handle, `RegisterClass` returning the
class atom (`0` on failure) and `UnregisterClass` (class name, module) returning success. -/
structure Win32 (σ : Type) where
  LoadCursor : σ → Nat → Nat → Nat
  RegisterClass : σ → WNDCLASS → Nat × σ
  UnregisterClass : σ → List Nat → Nat → Bool × σ

/-- The address of `DefWindowProc`, a fixed non-null procedure. -/
def DefWindowProc : Nat := 1

/-- `SystemCursors::Arrow`, the resource identifier `IDC_ARROW`. -/
def SystemCursors.Arrow : Nat := 32512

/-- `WindowStyles::None`. -/
def WindowStyles.None : Nat := 0

/-- `WindowExtenedStyle::None`. -/
def WindowExtenedStyle.None : Nat := 0

/-- `GetNativeWindowStyle`: the `uint32_t` behind the enumeration. -/
def GetNativeWindowStyle (styles : Nat) : Nat :=
  styles % 2 ^ 32

/-- Message of the error thrown by `LoadSystemCursor`. -/
def errLoadCursor : String := "Failed to load system cursor."

/-- Message of the error thrown by `Register`. -/
def errRegister : String := "Failed to register window class."

/-- Message of the error thrown by `Unregister`. -/
def errUnregister : String := "Failed to unregister window class."

/-- Embedding of `SystemCursors::LoadSystemCursor(cursorType)`. -/
def SystemCursors.LoadSystemCursor {σ : Type} (api : Win32 σ) (os : σ) (cursorType : Nat) :
    Except String Nat :=
  let cursorHandle := api.LoadCursor os 0 cursorType
  if cursorHandle = 0 then .error errLoadCursor else .ok cursorHandle

/-- The class value object: wide name, owning module, style and extended style. -/
structure WindowClass where
  className_ : List Nat
  instance_ : Nat
  styles_ : Nat
  extendedStyles_ : Nat
deriving DecidableEq, Repr

/-- Embedding of the constructor `WindowClass(className, instance, styles, extendedStyles)`. -/
def WindowClass.create (P : Codec) (className : List Nat) (inst : Nat) (styles : Nat)
    (extendedStyles : Nat) : Except String WindowClass :=
  match ToWString P className with
  | .error e => .error e
  | .ok wide => .ok ⟨wide, inst, styles, extendedStyles⟩

/-- Embedding of the constructor `WindowClass(className, instance)`. -/
def WindowClass.new (P : Codec) (className : List Nat) (inst : Nat) : Except String WindowClass :=
  WindowClass.create P className inst WindowStyles.None WindowExtenedStyle.None

/-- Embedding of `WindowClass::GetName`. -/
def WindowClass.GetName (c : WindowClass) : List Nat := c.className_

/-- Embedding of `WindowClass::GetInstance`. -/
def WindowClass.GetInstance (c : WindowClass) : Nat := c.instance_

/-- Embedding of `WindowClass::GetStyles`. -/
def WindowClass.GetStyles (c : WindowClass) : Nat := c.styles_

/-- The map `s_registeredClasses` from wide class names to module handles, as an association
list that holds a key once. -/
abbrev Registry := List (List Nat × Nat)

/-- Lookup `find`: the handle stored under a name. -/
def Registry.find : Registry → List Nat → Option Nat
  | [], _ => none
  | (k, v) :: t, key => if k = key then some v else Registry.find t key

/-- Removal `erase(key)`. -/
def Registry.erase (r : Registry) (key : List Nat) : Registry :=
  r.filter (fun p => decide (p.1 ≠ key))

/-- Assignment `map[key] = value`: inserts the key or replaces its value. -/
def Registry.assign (r : Registry) (key : List Nat) (value : Nat) : Registry :=
  (key, value) :: Registry.erase r key

/-- The state the registry functions act on: the operating system and the static map. -/
structure World (σ : Type) where
  os : σ
  s_registeredClasses : Registry

/-- The descriptor `wc` that `Register` fills in for a class and a loaded cursor. -/
def nativeDescriptor (windowClass : WindowClass) (cursor : Nat) : WNDCLASS :=
  { lpfnWndProc := DefWindowProc
    hInstance := windowClass.GetInstance
    lpszClassName := c_str windowClass.GetName
    style := GetNativeWindowStyle windowClass.GetStyles
    hCursor := cursor }

/-- Embedding of `WindowRegistry::Register`: the outcome (normal return or the thrown error)
and the state after the call. -/
def Register {σ : Type} (api : Win32 σ) (w : World σ) (windowClass : WindowClass) :
    Except String Unit × World σ :=
  match SystemCursors.LoadSystemCursor api w.os SystemCursors.Arrow with
  | .error e => (.error e, w)
  | .ok cursor =>
    let wc : WNDCLASS := nativeDescriptor windowClass cursor
    let r := api.RegisterClass w.os wc
    if r.1 = 0 then (.error errRegister, { os := r.2, s_registeredClasses := w.s_registeredClasses })
    else
      (.ok (), { os := r.2
                 s_registeredClasses :=
                   Registry.assign w.s_registeredClasses windowClass.GetName windowClass.GetInstance })

/-- Embedding of `WindowRegistry::Unregister`. -/
def Unregister {σ : Type} (api : Win32 σ) (w : World σ) (windowClass : WindowClass) :
    Except String Unit × World σ :=
  let r := api.UnregisterClass w.os (c_str windowClass.GetName) windowClass.GetInstance
  if r.1 = false then
    (.error errUnregister, { os := r.2, s_registeredClasses := w.s_registeredClasses })
  else
    (.ok (), { os := r.2
               s_registeredClasses := Registry.erase w.s_registeredClasses windowClass.GetName })

/-- Embedding of `WindowRegistry::IsRegistered`. -/
def IsRegistered {σ : Type} (P : Codec) (w : World σ) (className : List Nat) :
    Except String Bool :=
  match ToWString P className with
  | .error e => .error e
  | .ok wideClassName => .ok (Registry.find w.s_registeredClasses wideClassName).isSome

/-! ## The class table of the operating system -/

/-- The window classes registered with the operating system, each kept under the identity the
system gives it. -/
abbrev ClassTable := List (List Nat × Nat)

/-- The Win32 entry points over the class table, for a given identity of classes.
`ident name inst` is what the system keeps a class under, for the name it is passed and the
module: the system looks an application class up by the atom of its name, which disregards the
case of letters, and by its module.  `RegisterClass` fails for a class whose identity is already
in the table and `UnregisterClass` for one whose identity is not; either may also be refused for
a reason outside the table (`refuse`), and `LoadCursor` returns `cursor`.  A call that fails
leaves the table as it was. -/
def classTableOver (ident : List Nat → Nat → List Nat × Nat) (cursor : Nat) (refuse : Bool) :
    Win32 ClassTable where
  LoadCursor := fun _ _ _ => cursor
  RegisterClass := fun t wc =>
    if refuse || decide (ident wc.lpszClassName wc.hInstance ∈ t) then (0, t)
    else (0xC000, ident wc.lpszClassName wc.hInstance :: t)
  UnregisterClass := fun t name inst =>
    if refuse || decide (ident name inst ∉ t) then (false, t)
    else (true, t.filter (fun p => decide (p ≠ ident name inst)))

/-- Upper case of a code unit, for the letters `a` to `z`; the case table of the system is
larger, and what is proved for every identity holds for it. -/
def upcase (u : Nat) : Nat :=
  if 0x61 ≤ u ∧ u ≤ 0x7A then u - 0x20 else u

/-- The identity of a class by the atom of its name, the name in upper case, and its module:
`Wn` and `wn` of one module are one class. -/
def atomIdentity (name : List Nat) (inst : Nat) : List Nat × Nat :=
  (name.map upcase, inst)

/-- The Win32 entry points over the class table, with classes identified by atom and module. -/
def classTable (cursor : Nat) (refuse : Bool) : Win32 ClassTable :=
  classTableOver atomIdentity cursor refuse

/-- The identity the system gives the class of a value object: that of the name it reads
through `c_str()` and of the module. -/
def classIdentity (ident : List Nat → Nat → List Nat × Nat) (c : WindowClass) : List Nat × Nat :=
  ident (c_str c.className_) c.instance_

/-- One call of the registry, with what the operating system answers to it. -/
inductive Call where
  | register (c : WindowClass) (cursor : Nat) (refuse : Bool)
  | unregister (c : WindowClass) (refuse : Bool)
deriving DecidableEq, Repr

/-- The class a call is about. -/
def Call.windowClass : Call → WindowClass
  | .register c _ _ => c
  | .unregister c _ => c

/-- The registry and the operating system agree: a name has a registry entry exactly when a
class of that name is in the class table. -/
def InSync (ident : List Nat → Nat → List Nat × Nat) (w : World ClassTable) : Prop :=
  ∀ n : List Nat,
    (Registry.find w.s_registeredClasses n).isSome = true ↔ ∃ h, ident (c_str n) h ∈ w.os

/-- The registry and the operating system agree on the classes of `calls`: the name of such a
class has a registry entry exactly when the class is in the class table. -/
def InSyncOn (ident : List Nat → Nat → List Nat × Nat) (calls : List Call)
    (w : World ClassTable) : Prop :=
  ∀ call ∈ calls,
    (Registry.find w.s_registeredClasses call.windowClass.className_).isSome = true
      ↔ classIdentity ident call.windowClass ∈ w.os

/-- State after one call; a thrown error leaves the state the call had reached. -/
def Call.run (ident : List Nat → Nat → List Nat × Nat) (w : World ClassTable) :
    Call → World ClassTable
  | .register c cursor refuse => (Register (classTableOver ident cursor refuse) w c).2
  | .unregister c refuse => (Unregister (classTableOver ident 0 refuse) w c).2

/-- State after a sequence of calls. -/
def runCalls (ident : List Nat → Nat → List Nat × Nat) (w : World ClassTable)
    (calls : List Call) : World ClassTable :=
  calls.foldl (Call.run ident) w

/-- The start of the process: no class registered, empty registry. -/
def World.initial : World ClassTable :=
  { os := [], s_registeredClasses := [] }

/-- The classes that two calls name are one class for the system only when the calls use the
same class name. -/
def OneNamePerClass (ident : List Nat → Nat → List Nat × Nat) (calls : List Call) : Prop :=
  ∀ a ∈ calls, ∀ b ∈ calls,
    classIdentity ident a.windowClass = classIdentity ident b.windowClass →
      a.windowClass.className_ = b.windowClass.className_

/-- Two calls that use the same class name use the same module. -/
def OneModulePerName (calls : List Call) : Prop :=
  ∀ a ∈ calls, ∀ b ∈ calls,
    a.windowClass.className_ = b.windowClass.className_ →
      a.windowClass.instance_ = b.windowClass.instance_

/-- Every registry entry was made for a call of `calls` and names a class of the table, under
the module that is stored. -/
def EntriesRegistered (ident : List Nat → Nat → List Nat × Nat) (calls : List Call)
    (w : World ClassTable) : Prop :=
  ∀ n h, Registry.find w.s_registeredClasses n = some h →
    (∃ call ∈ calls, call.windowClass.className_ = n ∧ call.windowClass.instance_ = h)
    ∧ ident (c_str n) h ∈ w.os

/-- Every class of the table is the class of a call of `calls` and has its registry entry. -/
def ClassesEntered (ident : List Nat → Nat → List Nat × Nat) (calls : List Call)
    (w : World ClassTable) : Prop :=
  ∀ k ∈ w.os, ∃ call ∈ calls, classIdentity ident call.windowClass = k
    ∧ Registry.find w.s_registeredClasses call.windowClass.className_
        = some call.windowClass.instance_

/-! ## Platform.cpp: the system DPI category -/

/-- `Monitor::DPIAwareness`, a scoped enumeration over `int32_t`: a value is the number behind
it, so that a `static_cast` from a native level keeps the number. -/
structure DPIAwareness where
  val : Int
deriving DecidableEq, Repr

/-- `DPIAwareness::Unaware = -1`. -/
def DPIAwareness.Unaware : DPIAwareness := ⟨-1⟩

/-- `DPIAwareness::SystemAware = 0`. -/
def DPIAwareness.SystemAware : DPIAwareness := ⟨0⟩

/-- `DPIAwareness::PerMonitorAware = 1`. -/
def DPIAwareness.PerMonitorAware : DPIAwareness := ⟨1⟩

/-- `DPIAwareness::PerMonitorAwareV2 = 2`. -/
def DPIAwareness.PerMonitorAwareV2 : DPIAwareness := ⟨2⟩

/-- `DPIAwareness::UnawareGDIScaled = 3`. -/
def DPIAwareness.UnawareGDIScaled : DPIAwareness := ⟨3⟩

/-- The device-context entry points used by `GetSystemDPIAwareness`: `GetDC` (window handle)
returning a device context and `GetDeviceCaps` (device context, index) returning an `int`. -/
structure Gdi where
  GetDC : Nat → Nat
  GetDeviceCaps : Nat → Nat → Int

/-- The index `LOGPIXELSX` of `GetDeviceCaps`. -/
def LOGPIXELSX : Nat := 88

/-- The local `uint32_t dpi` of `GetSystemDPIAwareness`: the raw system DPI value, the `int`
returned for the screen converted to 32 bits without sign. -/
def systemDPI (g : Gdi) : Nat :=
  let screen := g.GetDC 0
  toUInt32 (g.GetDeviceCaps screen LOGPIXELSX)

/-- Embedding of `Monitor::GetSystemDPIAwareness`. -/
def GetSystemDPIAwareness (g : Gdi) : DPIAwareness :=
  let dpi := systemDPI g
  if dpi ≤ 96 then DPIAwareness.Unaware
  else if dpi ≤ 120 then DPIAwareness.SystemAware
  else if dpi ≤ 144 then DPIAwareness.PerMonitorAwareV2
  else DPIAwareness.PerMonitorAware

/-- `IsRegistered` as a call on the state: its outcome and the state after it.  The function
reads the static map through `find` and assigns nothing. -/
def IsRegistered.call {σ : Type} (P : Codec) (w : World σ) (className : List Nat) :
    Except String Bool × World σ :=
  (IsRegistered P w className, w)

/-! ## Platform.cpp: the process DPI awareness -/

/-- Modelled from the spec: the native level `PROCESS_DPI_UNAWARE` of `PROCESS_DPI_AWARENESS`;
the header that declares it is not among the sources, the value is that of the Windows SDK. -/
def PROCESS_DPI_UNAWARE : Int := 0

/-- Modelled from the spec: the native level `PROCESS_SYSTEM_DPI_AWARE`, value of the
Windows SDK. -/
def PROCESS_SYSTEM_DPI_AWARE : Int := 1

/-- Modelled from the spec: the native level `PROCESS_PER_MONITOR_DPI_AWARE`, value of the
Windows SDK. -/
def PROCESS_PER_MONITOR_DPI_AWARE : Int := 2

/-- The two entry points for the process DPI awareness, over an operating-system state `σ`:
`GetProcessDpiAwareness` gives the `HRESULT` and the level left in the out parameter,
`SetProcessDpiAwareness` takes the requested level and gives the `HRESULT` and the new state. -/
structure Shcore (σ : Type) where
  GetProcessDpiAwareness : σ → Int × Int
  SetProcessDpiAwareness : σ → Int → Int × σ

/-- The test `FAILED(hr)`: a negative `HRESULT`. -/
def FAILED (hr : Int) : Bool :=
  decide (hr < 0)

/-- Embedding of `Monitor::SetProcessDPIAwareness`: the state of the operating system after the
call `SetProcessDpiAwareness(static_cast<PROCESS_DPI_AWARENESS>(awareness))`, whose `HRESULT` the
function drops. -/
def SetProcessDPIAwareness {σ : Type} (api : Shcore σ) (os : σ) (awareness : DPIAwareness) : σ :=
  (api.SetProcessDpiAwareness os awareness.val).2

/-- Embedding of `Monitor::GetProcessDPIAwareness`; the function has no `throw`. -/
def GetProcessDPIAwareness {σ : Type} (api : Shcore σ) (os : σ) : DPIAwareness :=
  let r := api.GetProcessDpiAwareness os
  if FAILED r.1 then DPIAwareness.Unaware
  else ⟨r.2⟩

/-- The `HRESULT` values `S_OK`, `E_INVALIDARG` and `E_ACCESSDENIED` as signed numbers. -/
def S_OK : Int := 0

/-- The failure `E_INVALIDARG` (`0x80070057`). -/
def E_INVALIDARG : Int := -2147024809

/-- The failure `E_ACCESSDENIED` (`0x80070005`). -/
def E_ACCESSDENIED : Int := -2147024891

/-- The process DPI awareness as the operating system keeps it: `none` until it is set, which
reads as `PROCESS_DPI_UNAWARE`.  A level outside the three native levels is refused with
`E_INVALIDARG`, a second setting with `E_ACCESSDENIED`. -/
def processDpi : Shcore (Option Int) where
  GetProcessDpiAwareness := fun os => (S_OK, os.getD PROCESS_DPI_UNAWARE)
  SetProcessDpiAwareness := fun os level =>
    if level ≠ PROCESS_DPI_UNAWARE ∧ level ≠ PROCESS_SYSTEM_DPI_AWARE
        ∧ level ≠ PROCESS_PER_MONITOR_DPI_AWARE then (E_INVALIDARG, os)
    else if os.isSome then (E_ACCESSDENIED, os)
    else (S_OK, some level)

/-- The awareness level a native level stands for, by the meaning of the names. -/
def DPIAwareness.ofNative (level : Int) : Option DPIAwareness :=
  if level = PROCESS_DPI_UNAWARE then some DPIAwareness.Unaware
  else if level = PROCESS_SYSTEM_DPI_AWARE then some DPIAwareness.SystemAware
  else if level = PROCESS_PER_MONITOR_DPI_AWARE then some DPIAwareness.PerMonitorAware
  else none

/-! ## Platform.hpp and Platform.cpp: the message box -/

/-- Modelled from the spec: the native dialog flag `MB_ICONINFORMATION` that the enumeration
mirrors; the header that defines it is not among the sources, the value is that of the
Windows SDK. -/
def MB_ICONINFORMATION : Nat := 0x40

/-- Modelled from the spec: the native dialog flag `MB_ICONWARNING`, value of the Windows SDK. -/
def MB_ICONWARNING : Nat := 0x30

/-- Modelled from the spec: the native dialog flag `MB_ICONERROR`, value of the Windows SDK. -/
def MB_ICONERROR : Nat := 0x10

/-- Modelled from the spec: the native dialog flag `MB_ICONQUESTION`, value of the Windows SDK. -/
def MB_ICONQUESTION : Nat := 0x20

/-- Modelled from the spec: the native dialog flag `MB_OK`, value of the Windows SDK. -/
def MB_OK : Nat := 0

/-- Modelled from the spec: the native dialog flag `MB_OKCANCEL`, value of the Windows SDK. -/
def MB_OKCANCEL : Nat := 1

/-- Modelled from the spec: the native dialog flag `MB_YESNOCANCEL`, value of the Windows SDK. -/
def MB_YESNOCANCEL : Nat := 3

/-- Modelled from the spec: the native dialog flag `MB_YESNO`, value of the Windows SDK. -/
def MB_YESNO : Nat := 4

/-- `MessageBoxIcon`, a scoped enumeration over `uint32_t`: a value is its numeric code. -/
structure MessageBoxIcon where
  val : Nat
deriving DecidableEq, Repr

/-- `MessageBoxIcon::None = 0`. -/
def MessageBoxIcon.None : MessageBoxIcon := ⟨0⟩

/-- `MessageBoxIcon::Information = MB_ICONINFORMATION`. -/
def MessageBoxIcon.Information : MessageBoxIcon := ⟨MB_ICONINFORMATION⟩

/-- `MessageBoxIcon::Warning = MB_ICONWARNING`. -/
def MessageBoxIcon.Warning : MessageBoxIcon := ⟨MB_ICONWARNING⟩

/-- `MessageBoxIcon::Error = MB_ICONERROR`. -/
def MessageBoxIcon.Error : MessageBoxIcon := ⟨MB_ICONERROR⟩

/-- `MessageBoxIcon::Question = MB_ICONQUESTION`. -/
def MessageBoxIcon.Question : MessageBoxIcon := ⟨MB_ICONQUESTION⟩

/-- `MessageBoxButton`, a scoped enumeration over `uint32_t`. -/
structure MessageBoxButton where
  val : Nat
deriving DecidableEq, Repr

/-- `MessageBoxButton::OK = MB_OK`. -/
def MessageBoxButton.OK : MessageBoxButton := ⟨MB_OK⟩

/-- `MessageBoxButton::OKCancel = MB_OKCANCEL`. -/
def MessageBoxButton.OKCancel : MessageBoxButton := ⟨MB_OKCANCEL⟩

/-- `MessageBoxButton::YesNo = MB_YESNO`. -/
def MessageBoxButton.YesNo : MessageBoxButton := ⟨MB_YESNO⟩

/-- `MessageBoxButton::YesNoCancel = MB_YESNOCANCEL`. -/
def MessageBoxButton.YesNoCancel : MessageBoxButton := ⟨MB_YESNOCANCEL⟩

/-- `MessageBoxResult`, a scoped enumeration over `int32_t`; `static_cast<MessageBoxResult>` of
the number a dialog returned keeps the number. -/
structure MessageBoxResult where
  val : Int
deriving DecidableEq, Repr

/-- Embedding of `operator|(MessageBoxIcon, MessageBoxIcon)`. -/
def orIconIcon (lhs rhs : MessageBoxIcon) : Nat :=
  lhs.val ||| rhs.val

/-- Embedding of `operator|(MessageBoxButton, MessageBoxButton)`. -/
def orButtonButton (lhs rhs : MessageBoxButton) : Nat :=
  lhs.val ||| rhs.val

/-- Embedding of `operator|(MessageBoxIcon, MessageBoxButton)`. -/
def orIconButton (icon : MessageBoxIcon) (button : MessageBoxButton) : Nat :=
  icon.val ||| button.val

/-- An operand of an expression `lhs | rhs`: a value of one of the two enumerations or a
`uint32_t`. -/
inductive Operand where
  | icon (i : MessageBoxIcon)
  | button (b : MessageBoxButton)
  | word (n : Nat)
deriving DecidableEq, Repr

/-- The value of the expression `lhs | rhs` by the overloads that `Platform.hpp` declares and the
built-in operator on `uint32_t`; `none` when no `operator|` takes the operands (a scoped
enumeration does not convert to a number or to the other enumeration). -/
def operatorOr : Operand → Operand → Option Nat
  | .icon lhs, .icon rhs => some (orIconIcon lhs rhs)
  | .button lhs, .button rhs => some (orButtonButton lhs rhs)
  | .icon i, .button b => some (orIconButton i b)
  | .word a, .word b => some (a ||| b)
  | _, _ => none

/-- The dialog primitives `MessageBoxW` and `MessageBoxA`: owner window, text, title (as the
characters before the terminating NUL) and flag word, giving the identifier of the control that
closed the dialog. -/
structure User32Dialog where
  MessageBoxW : Nat → List Nat → List Nat → Nat → Int
  MessageBoxA : Nat → List Nat → List Nat → Nat → Int

/-- Embedding of `Show(const wchar_t*, const wchar_t*, icon, buttons)`. -/
def MessageBox.ShowW (api : User32Dialog) (text title : List Nat) (icon : MessageBoxIcon)
    (buttons : MessageBoxButton) : MessageBoxResult :=
  ⟨api.MessageBoxW 0 text title (orIconButton icon buttons)⟩

/-- Embedding of `Show(const char*, const char*, icon, buttons)`. -/
def MessageBox.ShowA (api : User32Dialog) (text title : List Nat) (icon : MessageBoxIcon)
    (buttons : MessageBoxButton) : MessageBoxResult :=
  ⟨api.MessageBoxA 0 text title (orIconButton icon buttons)⟩

/-- Embedding of `Show(const std::wstring&, const std::wstring&, icon, buttons)`. -/
def MessageBox.ShowWString (api : User32Dialog) (text title : List Nat) (icon : MessageBoxIcon)
    (buttons : MessageBoxButton) : MessageBoxResult :=
  MessageBox.ShowW api (c_str text) (c_str title) icon buttons

/-- Embedding of `Show(const std::string&, const std::string&, icon, buttons)`. -/
def MessageBox.ShowString (api : User32Dialog) (text title : List Nat) (icon : MessageBoxIcon)
    (buttons : MessageBoxButton) : MessageBoxResult :=
  MessageBox.ShowA api (c_str text) (c_str title) icon buttons

/-- Embedding of `Show(WindowHandle, const wchar_t*, const wchar_t*, icon, buttons)`. -/
def MessageBox.ShowOwnedW (api : User32Dialog) (windowHandle : Nat) (text title : List Nat)
    (icon : MessageBoxIcon) (buttons : MessageBoxButton) : MessageBoxResult :=
  ⟨api.MessageBoxW windowHandle text title (orIconButton icon buttons)⟩

/-- Embedding of `Show(WindowHandle, const char*, const char*, icon, buttons)`. -/
def MessageBox.ShowOwnedA (api : User32Dialog) (windowHandle : Nat) (text title : List Nat)
    (icon : MessageBoxIcon) (buttons : MessageBoxButton) : MessageBoxResult :=
  ⟨api.MessageBoxA windowHandle text title (orIconButton icon buttons)⟩

/-- Embedding of `Show(WindowHandle, const std::wstring&, const std::wstring&, icon, buttons)`. -/
def MessageBox.ShowOwnedWString (api : User32Dialog) (windowHandle : Nat) (text title : List Nat)
    (icon : MessageBoxIcon) (buttons : MessageBoxButton) : MessageBoxResult :=
  MessageBox.ShowOwnedW api windowHandle (c_str text) (c_str title) icon buttons

/-- Embedding of `Show(WindowHandle, const std::string&, const std::string&, icon, buttons)`. -/
def MessageBox.ShowOwnedString (api : User32Dialog) (windowHandle : Nat) (text title : List Nat)
    (icon : MessageBoxIcon) (buttons : MessageBoxButton) : MessageBoxResult :=
  MessageBox.ShowOwnedA api windowHandle (c_str text) (c_str title) icon buttons

/-- A dialog primitive that answers with the flag word it was passed. -/
def echoFlags : User32Dialog where
  MessageBoxW := fun _ _ _ flags => (flags : Int)
  MessageBoxA := fun _ _ _ flags => (flags : Int)

/-! ## Platform.hpp and Platform.cpp: the primary monitor -/

/-- `Monitor::MonitorWorkArea`: four `long` coordinates, zero by default. -/
structure MonitorWorkArea where
  Top : Int := 0
  Left : Int := 0
  Right : Int := 0
  Bottom : Int := 0
deriving DecidableEq, Repr

/-- `Monitor::MonitorArea`: four `long` coordinates, zero by default. -/
structure MonitorArea where
  Top : Int := 0
  Left : Int := 0
  Right : Int := 0
  Bottom : Int := 0
deriving DecidableEq, Repr

/-- `Monitor::MonitorDPIScaling`. -/
structure MonitorDPIScaling where
  X : Nat := 0
  Y : Nat := 0
deriving DecidableEq, Repr

/-- `Monitor::MonitorInfo` with its default member initialisers; the default name is the wide
string `undefined`. -/
structure MonitorInfo where
  MonitorName : List Nat := [0x75, 0x6E, 0x64, 0x65, 0x66, 0x69, 0x6E, 0x65, 0x64]
  WorkArea : MonitorWorkArea := {}
  Area : MonitorArea := {}
  DPIScaling : MonitorDPIScaling := {}
  Awareness : DPIAwareness := DPIAwareness.Unaware
  Width : Nat := 0
  Height : Nat := 0
  RefreshRate : Nat := 0
  BitsPerPixel : Nat := 0
  IsPrimary : Bool := false
  IsSupportHightDPI : Bool := false
deriving DecidableEq, Repr

/-- The native rectangle `RECT` of `LONG` coordinates. -/
structure RECT where
  left : Int
  top : Int
  right : Int
  bottom : Int
deriving DecidableEq, Repr

/-- The fields of `MONITORINFOEXW` that `GetPrimaryMonitor` reads. -/
structure MONITORINFOEXW where
  rcMonitor : RECT
  rcWork : RECT
  szDevice : List Nat
deriving DecidableEq, Repr

/-- The fields of `DEVMODEW` that `GetPrimaryMonitor` reads. -/
structure DEVMODEW where
  dmBitsPerPel : Nat
  dmDisplayFlags : Nat
  dmDisplayFrequency : Nat
deriving DecidableEq, Repr

/-- Modelled from the spec: the native flag `MONITOR_DEFAULTTOPRIMARY`, value of the
Windows SDK. -/
def MONITOR_DEFAULTTOPRIMARY : Nat := 1

/-- Modelled from the spec: the native selector `MDT_EFFECTIVE_DPI`, value of the Windows SDK. -/
def MDT_EFFECTIVE_DPI : Nat := 0

/-- Modelled from the spec: the native selector `ENUM_CURRENT_SETTINGS`, value of the
Windows SDK. -/
def ENUM_CURRENT_SETTINGS : Nat := 0xFFFFFFFF

/-- Modelled from the spec: the native flag `DM_INTERLACED`, value of the Windows SDK. -/
def DM_INTERLACED : Nat := 0x00000002

/-- Modelled from the spec: the native flag `DM_PELSWIDTH`, value of the Windows SDK. -/
def DM_PELSWIDTH : Nat := 0x00080000

/-- The display queries of the operating system at one moment: `MonitorFromWindow` (window,
flags) giving a monitor handle, `GetMonitorInfoW` (monitor) giving the filled structure or `none`
for `FALSE`, `GetDpiForMonitor` (monitor, kind) giving what the two out variables hold after the
call, and `EnumDisplaySettingsW` (device name, mode) giving the filled structure or `none`. -/
structure Display where
  MonitorFromWindow : Nat → Nat → Nat
  GetMonitorInfoW : Nat → Option MONITORINFOEXW
  GetDpiForMonitor : Nat → Nat → Nat × Nat
  EnumDisplaySettingsW : List Nat → Nat → Option DEVMODEW

/-- The body of the `if (!primaryMonitor)` branch of `GetPrimaryMonitor` after `make_shared`:
the snapshot the queries fill in, and the number of queries made. -/
def snapshotPrimaryMonitor (api : Display) : MonitorInfo × Nat :=
  let primaryMonitor : MonitorInfo := {}
  let hMonitor := api.MonitorFromWindow 0 MONITOR_DEFAULTTOPRIMARY
  if hMonitor ≠ 0 then
    match api.GetMonitorInfoW hMonitor with
    | some monitorInfo =>
      let dpi := api.GetDpiForMonitor hMonitor MDT_EFFECTIVE_DPI
      let primaryMonitor : MonitorInfo :=
        { primaryMonitor with
          MonitorName := c_str monitorInfo.szDevice
          WorkArea :=
            { Top := monitorInfo.rcWork.top
              Left := monitorInfo.rcWork.left
              Right := monitorInfo.rcWork.right
              Bottom := monitorInfo.rcWork.bottom }
          Area :=
            { Top := monitorInfo.rcMonitor.top
              Left := monitorInfo.rcMonitor.left
              Right := monitorInfo.rcMonitor.right
              Bottom := monitorInfo.rcMonitor.bottom }
          Width := toUInt32 (monitorInfo.rcMonitor.right - monitorInfo.rcMonitor.left)
          Height := toUInt32 (monitorInfo.rcMonitor.bottom - monitorInfo.rcMonitor.top)
          IsPrimary := true
          DPIScaling := { X := dpi.1, Y := dpi.2 } }
      match api.EnumDisplaySettingsW (c_str monitorInfo.szDevice) ENUM_CURRENT_SETTINGS with
      | some devMode =>
        ({ primaryMonitor with
            BitsPerPixel := devMode.dmBitsPerPel
            IsSupportHightDPI := decide (devMode.dmDisplayFlags &&& DM_INTERLACED = 0)
            RefreshRate := devMode.dmDisplayFrequency
            Awareness :=
              if devMode.dmDisplayFlags &&& DM_PELSWIDTH ≠ 0 then DPIAwareness.PerMonitorAware
              else DPIAwareness.Unaware }, 4)
      | none => (primaryMonitor, 4)
    | none => (primaryMonitor, 2)
  else (primaryMonitor, 1)

/-- A `std::shared_ptr<MonitorInfo>`: the address of the object it shares (`0` for `nullptr`). -/
structure SharedPtr where
  address : Nat
deriving DecidableEq, Repr

/-- The state `GetPrimaryMonitor` acts on: the function-local static `primaryMonitor`, the
objects that `make_shared` has created (the object at address `a` is entry `a - 1`), and the
number of queries put to the operating system so far. -/
structure MonitorState where
  primaryMonitor : SharedPtr
  objects : List MonitorInfo
  osQueries : Nat
deriving DecidableEq, Repr

/-- The state at the start of the process: the static is `nullptr`. -/
def MonitorState.initial : MonitorState :=
  { primaryMonitor := ⟨0⟩, objects := [], osQueries := 0 }

/-- The object a pointer shares, `none` for `nullptr` or an address that was never given out. -/
def MonitorState.deref (st : MonitorState) (p : SharedPtr) : Option MonitorInfo :=
  if p.address = 0 then none else st.objects.get? (p.address - 1)

/-- Embedding of `Monitor::GetPrimaryMonitor`: the returned pointer and the state after the
call. -/
def GetPrimaryMonitor (api : Display) (st : MonitorState) : SharedPtr × MonitorState :=
  if st.primaryMonitor.address = 0 then
    let r := snapshotPrimaryMonitor api
    let p : SharedPtr := ⟨st.objects.length + 1⟩
    (p, { primaryMonitor := p
          objects := st.objects ++ [r.1]
          osQueries := st.osQueries + r.2 })
  else (st.primaryMonitor, st)

/-- The state after a sequence of `GetPrimaryMonitor` calls, each with the display configuration
the operating system reports at that moment. -/
def laterCalls (st : MonitorState) (apis : List Display) : MonitorState :=
  apis.foldl (fun s api => (GetPrimaryMonitor api s).2) st

/-- The range of the native type `LONG` (and of `long` on Windows): 32 bits with sign. -/
def IsLONG (x : Int) : Prop :=
  -2 ^ 31 ≤ x ∧ x < 2 ^ 31

instance (x : Int) : Decidable (IsLONG x) := by
  unfold IsLONG; infer_instance

/-- The primary monitor's information is obtained: `MonitorFromWindow` gives a monitor and
`GetMonitorInfoW` succeeds for it, the two tests that guard the assignments of
`GetPrimaryMonitor`. -/
def monitorInfoObtained (api : Display) : Prop :=
  api.MonitorFromWindow 0 MONITOR_DEFAULTTOPRIMARY ≠ 0
  ∧ (api.GetMonitorInfoW (api.MonitorFromWindow 0 MONITOR_DEFAULTTOPRIMARY)).isSome = true

instance (api : Display) : Decidable (monitorInfoObtained api) := by
  unfold monitorInfoObtained; infer_instance

/-! ## Codec lemmas -/

theorem utf8DecodeChar_sound {s : List Nat} {c : Nat} {rest : List Nat}
    (h : utf8DecodeChar s = some (c, rest)) : s = utf8EncodeChar c ++ rest ∧ IsScalar c := by
  match s with
  | [] => simp [utf8DecodeChar] at h
  | b0 :: r =>
    simp only [utf8DecodeChar] at h
    split_ifs at h with h1 h2 h3 h4 h5
    · simp only [Option.some.injEq, Prod.mk.injEq] at h
      obtain ⟨rfl, rfl⟩ := h
      simp only [utf8EncodeChar, h1, if_true, IsScalar]
      exact ⟨rfl, by omega⟩
    · match r with
      | [] => simp at h
      | b1 :: r1 =>
        simp only [isCont, Bool.and_eq_true, decide_eq_true_eq] at h
        split_ifs at h with hc
        simp only [Option.some.injEq, Prod.mk.injEq] at h
        obtain ⟨rfl, rfl⟩ := h
        have e0 : ¬ ((b0 - 192) * 64 + (b1 - 128) < 128) := by omega
        have e1 : (b0 - 192) * 64 + (b1 - 128) < 2048 := by omega
        simp only [utf8EncodeChar, e0, e1, if_true, if_false, IsScalar]
        refine ⟨?_, by omega⟩
        simp only [List.cons_append, List.nil_append, List.cons.injEq, and_true]
        omega
    · match r with
      | [] => simp at h
      | [_] => simp at h
      | b1 :: b2 :: r2 =>
        simp only [isCont, Bool.and_eq_true, decide_eq_true_eq, Bool.not_eq_true,
          Bool.not_eq_true', Bool.and_eq_false_iff, decide_eq_false_iff_not] at h
        split_ifs at h with hc
        simp only [Option.some.injEq, Prod.mk.injEq] at h
        obtain ⟨rfl, rfl⟩ := h
        have e0 : ¬ ((b0 - 224) * 4096 + (b1 - 128) * 64 + (b2 - 128) < 128) := by omega
        have e1 : ¬ ((b0 - 224) * 4096 + (b1 - 128) * 64 + (b2 - 128) < 2048) := by omega
        have e2 : (b0 - 224) * 4096 + (b1 - 128) * 64 + (b2 - 128) < 65536 := by omega
        simp only [utf8EncodeChar, e0, e1, e2, if_true, if_false, IsScalar]
        refine ⟨?_, by omega⟩
        simp only [List.cons_append, List.nil_append, List.cons.injEq, and_true]
        omega
    · match r with
      | [] => simp at h
      | [_] => simp at h
      | [_, _] => simp at h
      | b1 :: b2 :: b3 :: r3 =>
        simp only [isCont, Bool.and_eq_true, decide_eq_true_eq] at h
        split_ifs at h with hc
        simp only [Option.some.injEq, Prod.mk.injEq] at h
        obtain ⟨rfl, rfl⟩ := h
        have e0 : ¬ ((b0 - 240) * 262144 + (b1 - 128) * 4096 + (b2 - 128) * 64 + (b3 - 128) < 128) := by
          omega
        have e1 : ¬ ((b0 - 240) * 262144 + (b1 - 128) * 4096 + (b2 - 128) * 64 + (b3 - 128) < 2048) := by
          omega
        have e2 : ¬ ((b0 - 240) * 262144 + (b1 - 128) * 4096 + (b2 - 128) * 64 + (b3 - 128) < 65536) := by
          omega
        simp only [utf8EncodeChar, e0, e1, e2, if_false, IsScalar]
        refine ⟨?_, by omega⟩
        simp only [List.cons_append, List.nil_append, List.cons.injEq, and_true]
        omega

theorem utf8DecodeChar_encode {c : Nat} (hc : IsScalar c) (rest : List Nat) :
    utf8DecodeChar (utf8EncodeChar c ++ rest) = some (c, rest) := by
  unfold IsScalar at hc
  unfold utf8EncodeChar
  split_ifs with h1 h2 h3
  · simp [utf8DecodeChar, h1]
  · have a0 : ¬ (192 + c / 64 < 128) := by omega
    have a1 : ¬ (192 + c / 64 < 194) := by omega
    have a2 : 192 + c / 64 < 224 := by omega
    have a3 : isCont (128 + c % 64) = true := by
      simp only [isCont, Bool.and_eq_true, decide_eq_true_eq]; omega
    simp only [List.cons_append, List.nil_append, utf8DecodeChar, a0, a1, a2, a3, if_true, if_false,
      Option.some.injEq, Prod.mk.injEq, and_true]
    omega
  · have a0 : ¬ (224 + c / 4096 < 128) := by omega
    have a1 : ¬ (224 + c / 4096 < 194) := by omega
    have a2 : ¬ (224 + c / 4096 < 224) := by omega
    have a3 : 224 + c / 4096 < 240 := by omega
    have a4 : isCont (128 + c / 64 % 64) = true := by
      simp only [isCont, Bool.and_eq_true, decide_eq_true_eq]; omega
    have a5 : isCont (128 + c % 64) = true := by
      simp only [isCont, Bool.and_eq_true, decide_eq_true_eq]; omega
    have a6 : (224 + c / 4096 - 224) * 4096 + (128 + c / 64 % 64 - 128) * 64 + (128 + c % 64 - 128) = c := by
      omega
    simp only [List.cons_append, List.nil_append, utf8DecodeChar, a0, a1, a2, a3, a4, a5, a6, if_true,
      if_false, Bool.and_self, Bool.true_and]
    have a7 : (decide (2048 ≤ c) && !(decide (55296 ≤ c) && decide (c < 57344))) = true := by
      simp only [Bool.and_eq_true, decide_eq_true_eq, Bool.not_eq_true', Bool.and_eq_false_iff,
        decide_eq_false_iff_not]
      omega
    simp only [a7, if_true]
  · have a0 : ¬ (240 + c / 262144 < 128) := by omega
    have a1 : ¬ (240 + c / 262144 < 194) := by omega
    have a2 : ¬ (240 + c / 262144 < 224) := by omega
    have a3 : ¬ (240 + c / 262144 < 240) := by omega
    have a3b : 240 + c / 262144 < 245 := by omega
    have a4 : isCont (128 + c / 4096 % 64) = true := by
      simp only [isCont, Bool.and_eq_true, decide_eq_true_eq]; omega
    have a5 : isCont (128 + c / 64 % 64) = true := by
      simp only [isCont, Bool.and_eq_true, decide_eq_true_eq]; omega
    have a5b : isCont (128 + c % 64) = true := by
      simp only [isCont, Bool.and_eq_true, decide_eq_true_eq]; omega
    have a6 : (240 + c / 262144 - 240) * 262144 + (128 + c / 4096 % 64 - 128) * 4096
        + (128 + c / 64 % 64 - 128) * 64 + (128 + c % 64 - 128) = c := by
      omega
    simp only [List.cons_append, List.nil_append, utf8DecodeChar, a0, a1, a2, a3, a3b, a4, a5, a5b, a6,
      if_true, if_false, Bool.and_self, Bool.true_and]
    have a7 : (decide (65536 ≤ c) && decide (c < 1114112)) = true := by
      simp only [Bool.and_eq_true, decide_eq_true_eq]
      omega
    simp only [a7, if_true]

theorem utf16DecodeChar_sound {w : List Nat} {c : Nat} {rest : List Nat}
    (h : utf16DecodeChar w = some (c, rest)) : w = utf16EncodeChar c ++ rest ∧ IsScalar c := by
  match w with
  | [] => simp [utf16DecodeChar] at h
  | u0 :: r =>
    simp only [utf16DecodeChar] at h
    split_ifs at h with h1 h2 h3 h4
    · simp only [Option.some.injEq, Prod.mk.injEq] at h
      obtain ⟨rfl, rfl⟩ := h
      have e0 : u0 < 65536 := by omega
      simp only [utf16EncodeChar, e0, if_true, IsScalar]
      exact ⟨rfl, by omega⟩
    · match r with
      | [] => simp at h
      | u1 :: r1 =>
        simp only [Bool.and_eq_true, decide_eq_true_eq] at h
        split_ifs at h with hc
        simp only [Option.some.injEq, Prod.mk.injEq] at h
        obtain ⟨rfl, rfl⟩ := h
        have e0 : ¬ (65536 + (u0 - 55296) * 1024 + (u1 - 56320) < 65536) := by omega
        simp only [utf16EncodeChar, e0, if_false, IsScalar]
        refine ⟨?_, by omega⟩
        simp only [List.cons_append, List.nil_append, List.cons.injEq, and_true]
        omega
    · simp only [Option.some.injEq, Prod.mk.injEq] at h
      obtain ⟨rfl, rfl⟩ := h
      simp only [utf16EncodeChar, h4, if_true, IsScalar]
      exact ⟨rfl, by omega⟩

theorem utf16DecodeChar_encode {c : Nat} (hc : IsScalar c) (rest : List Nat) :
    utf16DecodeChar (utf16EncodeChar c ++ rest) = some (c, rest) := by
  unfold IsScalar at hc
  unfold utf16EncodeChar
  split_ifs with h1
  · by_cases h2 : c < 55296
    · simp [utf16DecodeChar, h2]
    · have a1 : ¬ (c < 56320) := by omega
      have a2 : ¬ (c < 57344) := by omega
      simp [utf16DecodeChar, h2, a1, a2, h1]
  · have a0 : ¬ (55296 + (c - 65536) / 1024 < 55296) := by omega
    have a1 : 55296 + (c - 65536) / 1024 < 56320 := by omega
    have a2 : (decide (56320 ≤ 56320 + (c - 65536) % 1024)
        && decide (56320 + (c - 65536) % 1024 < 57344)) = true := by
      simp only [Bool.and_eq_true, decide_eq_true_eq]; omega
    simp only [List.cons_append, List.nil_append, utf16DecodeChar, a0, a1, a2, if_true, if_false,
      Option.some.injEq, Prod.mk.injEq, and_true]
    omega

theorem utf8EncodeChar_length (c : Nat) :
    1 ≤ (utf8EncodeChar c).length ∧ (utf8EncodeChar c).length ≤ 4 := by
  unfold utf8EncodeChar
  split_ifs <;> simp

theorem utf16EncodeChar_length (c : Nat) :
    1 ≤ (utf16EncodeChar c).length ∧ (utf16EncodeChar c).length ≤ (utf8EncodeChar c).length := by
  unfold utf16EncodeChar utf8EncodeChar
  split_ifs <;> first | omega | simp

theorem utf16Encode_length_le (cps : List Nat) :
    (utf16Encode cps).length ≤ (utf8Encode cps).length := by
  induction cps with
  | nil => simp [utf16Encode, utf8Encode]
  | cons c cs ih =>
    have := (utf16EncodeChar_length c).2
    simp only [utf16Encode, utf8Encode, List.length_append]
    omega

theorem utf8Encode_length_le (cps : List Nat) :
    (utf8Encode cps).length ≤ 3 * (utf16Encode cps).length := by
  induction cps with
  | nil => simp [utf16Encode, utf8Encode]
  | cons c cs ih =>
    have : (utf8EncodeChar c).length ≤ 3 * (utf16EncodeChar c).length := by
      unfold utf16EncodeChar utf8EncodeChar
      split_ifs <;> simp
    simp only [utf16Encode, utf8Encode, List.length_append]
    omega

theorem utf8Encode_ne_nil {cps : List Nat} (h : cps ≠ []) : utf8Encode cps ≠ [] := by
  match cps with
  | [] => exact absurd rfl h
  | c :: cs =>
    intro e
    have h1 := (utf8EncodeChar_length c).1
    have h2 := congrArg List.length e
    simp only [utf8Encode, List.length_append, List.length_nil] at h2
    omega

theorem utf16Encode_ne_nil {cps : List Nat} (h : cps ≠ []) : utf16Encode cps ≠ [] := by
  match cps with
  | [] => exact absurd rfl h
  | c :: cs =>
    intro e
    have h1 := (utf16EncodeChar_length c).1
    have h2 := congrArg List.length e
    simp only [utf16Encode, List.length_append, List.length_nil] at h2
    omega

theorem utf8DecodeFuel_step {s rest : List Nat} {c : Nat} (fuel : Nat)
    (h : utf8DecodeChar s = some (c, rest)) :
    utf8DecodeFuel (fuel + 1) s = c :: utf8DecodeFuel fuel rest := by
  match s with
  | [] => simp [utf8DecodeChar] at h
  | b :: r => simp only [utf8DecodeFuel, h]

theorem utf16DecodeFuel_step {w rest : List Nat} {c : Nat} (fuel : Nat)
    (h : utf16DecodeChar w = some (c, rest)) :
    utf16DecodeFuel (fuel + 1) w = c :: utf16DecodeFuel fuel rest := by
  match w with
  | [] => simp [utf16DecodeChar] at h
  | u :: r => simp only [utf16DecodeFuel, h]

/-- Decoding the UTF-8 encoding of scalar values gives them back, with any fuel of at least the
length of the encoding. -/
theorem utf8DecodeFuel_encode (cps : List Nat) (hs : ∀ c ∈ cps, IsScalar c) (fuel : Nat)
    (hf : (utf8Encode cps).length ≤ fuel) : utf8DecodeFuel fuel (utf8Encode cps) = cps := by
  induction cps generalizing fuel with
  | nil => cases fuel <;> simp [utf8Encode, utf8DecodeFuel]
  | cons c cs ih =>
    have hc : IsScalar c := hs c (List.mem_cons_self _ _)
    have hl := (utf8EncodeChar_length c).1
    simp only [utf8Encode, List.length_append] at hf ⊢
    obtain ⟨f, rfl⟩ : ∃ f, fuel = f + 1 := ⟨fuel - 1, by omega⟩
    rw [utf8DecodeFuel_step f (utf8DecodeChar_encode hc _)]
    rw [ih (fun x hx => hs x (List.mem_cons_of_mem _ hx)) f (by omega)]

/-- Decoding the UTF-16 encoding of scalar values gives them back. -/
theorem utf16DecodeFuel_encode (cps : List Nat) (hs : ∀ c ∈ cps, IsScalar c) (fuel : Nat)
    (hf : (utf16Encode cps).length ≤ fuel) : utf16DecodeFuel fuel (utf16Encode cps) = cps := by
  induction cps generalizing fuel with
  | nil => cases fuel <;> simp [utf16Encode, utf16DecodeFuel]
  | cons c cs ih =>
    have hc : IsScalar c := hs c (List.mem_cons_self _ _)
    have hl := (utf16EncodeChar_length c).1
    simp only [utf16Encode, List.length_append] at hf ⊢
    obtain ⟨f, rfl⟩ : ∃ f, fuel = f + 1 := ⟨fuel - 1, by omega⟩
    rw [utf16DecodeFuel_step f (utf16DecodeChar_encode hc _)]
    rw [ih (fun x hx => hs x (List.mem_cons_of_mem _ hx)) f (by omega)]

/-- A byte string accepted by the validity check is the UTF-8 encoding of scalar values. -/
theorem utf8Valid_encoding (fuel : Nat) (s : List Nat) (h : utf8ValidFuel fuel s = true) :
    ∃ cps, (∀ c ∈ cps, IsScalar c) ∧ utf8Encode cps = s := by
  induction fuel generalizing s with
  | zero =>
    match s with
    | [] => exact ⟨[], by simp, rfl⟩
    | _ :: _ => simp [utf8ValidFuel] at h
  | succ f ih =>
    match s with
    | [] => exact ⟨[], by simp, rfl⟩
    | b :: r =>
      simp only [utf8ValidFuel] at h
      match hd : utf8DecodeChar (b :: r) with
      | none => simp [hd] at h
      | some (c, rest) =>
        simp only [hd] at h
        obtain ⟨cps, hcps, he⟩ := ih rest h
        obtain ⟨e1, e2⟩ := utf8DecodeChar_sound hd
        refine ⟨c :: cps, ?_, ?_⟩
        · intro x hx
          rcases List.mem_cons.mp hx with rfl | hx
          · exact e2
          · exact hcps x hx
        · simp only [utf8Encode, he, e1]

/-- A wide string accepted by the validity check is the UTF-16 encoding of scalar values. -/
theorem utf16Valid_encoding (fuel : Nat) (w : List Nat) (h : utf16ValidFuel fuel w = true) :
    ∃ cps, (∀ c ∈ cps, IsScalar c) ∧ utf16Encode cps = w := by
  induction fuel generalizing w with
  | zero =>
    match w with
    | [] => exact ⟨[], by simp, rfl⟩
    | _ :: _ => simp [utf16ValidFuel] at h
  | succ f ih =>
    match w with
    | [] => exact ⟨[], by simp, rfl⟩
    | u :: r =>
      simp only [utf16ValidFuel] at h
      match hd : utf16DecodeChar (u :: r) with
      | none => simp [hd] at h
      | some (c, rest) =>
        simp only [hd] at h
        obtain ⟨cps, hcps, he⟩ := ih rest h
        obtain ⟨e1, e2⟩ := utf16DecodeChar_sound hd
        refine ⟨c :: cps, ?_, ?_⟩
        · intro x hx
          rcases List.mem_cons.mp hx with rfl | hx
          · exact e2
          · exact hcps x hx
        · simp only [utf16Encode, he, e1]

theorem utf8ValidFuel_step {s rest : List Nat} {c : Nat} (fuel : Nat)
    (h : utf8DecodeChar s = some (c, rest)) :
    utf8ValidFuel (fuel + 1) s = utf8ValidFuel fuel rest := by
  match s with
  | [] => simp [utf8DecodeChar] at h
  | b :: r => simp only [utf8ValidFuel, h]

theorem utf16ValidFuel_step {w rest : List Nat} {c : Nat} (fuel : Nat)
    (h : utf16DecodeChar w = some (c, rest)) :
    utf16ValidFuel (fuel + 1) w = utf16ValidFuel fuel rest := by
  match w with
  | [] => simp [utf16DecodeChar] at h
  | u :: r => simp only [utf16ValidFuel, h]

theorem utf8ValidFuel_encode (cps : List Nat) (hs : ∀ c ∈ cps, IsScalar c) (fuel : Nat)
    (hf : (utf8Encode cps).length ≤ fuel) : utf8ValidFuel fuel (utf8Encode cps) = true := by
  induction cps generalizing fuel with
  | nil => cases fuel <;> simp [utf8Encode, utf8ValidFuel]
  | cons c cs ih =>
    have hc : IsScalar c := hs c (List.mem_cons_self _ _)
    have hl := (utf8EncodeChar_length c).1
    simp only [utf8Encode, List.length_append] at hf ⊢
    obtain ⟨f, rfl⟩ : ∃ f, fuel = f + 1 := ⟨fuel - 1, by omega⟩
    rw [utf8ValidFuel_step f (utf8DecodeChar_encode hc _)]
    exact ih (fun x hx => hs x (List.mem_cons_of_mem _ hx)) f (by omega)

theorem utf16ValidFuel_encode (cps : List Nat) (hs : ∀ c ∈ cps, IsScalar c) (fuel : Nat)
    (hf : (utf16Encode cps).length ≤ fuel) : utf16ValidFuel fuel (utf16Encode cps) = true := by
  induction cps generalizing fuel with
  | nil => cases fuel <;> simp [utf16Encode, utf16ValidFuel]
  | cons c cs ih =>
    have hc : IsScalar c := hs c (List.mem_cons_self _ _)
    have hl := (utf16EncodeChar_length c).1
    simp only [utf16Encode, List.length_append] at hf ⊢
    obtain ⟨f, rfl⟩ : ∃ f, fuel = f + 1 := ⟨fuel - 1, by omega⟩
    rw [utf16ValidFuel_step f (utf16DecodeChar_encode hc _)]
    exact ih (fun x hx => hs x (List.mem_cons_of_mem _ hx)) f (by omega)

/-- The valid UTF-8 strings are exactly the UTF-8 encodings of lists of scalar values: the
length is fuel enough for the check. -/
theorem isValidUTF8_iff (s : List Nat) :
    IsValidUTF8 s ↔ ∃ cps, (∀ c ∈ cps, IsScalar c) ∧ utf8Encode cps = s := by
  constructor
  · exact utf8Valid_encoding _ _
  · rintro ⟨cps, hs, rfl⟩
    exact utf8ValidFuel_encode cps hs _ (le_refl _)

/-- The valid UTF-16 strings are exactly the UTF-16 encodings of lists of scalar values. -/
theorem isValidUTF16_iff (w : List Nat) :
    IsValidUTF16 w ↔ ∃ cps, (∀ c ∈ cps, IsScalar c) ∧ utf16Encode cps = w := by
  constructor
  · exact utf16Valid_encoding _ _
  · rintro ⟨cps, hs, rfl⟩
    exact utf16ValidFuel_encode cps hs _ (le_refl _)

/-! ## Lemmas on the conversion calls -/

theorem toInt32_of_lt {n : Nat} (h : n < 2 ^ 31) : toInt32 n = (n : Int) := by
  have h1 : n % 2 ^ 32 = n := Nat.mod_eq_of_lt (by omega)
  simp only [toInt32, h1, h, if_true]

theorem sourceChars_length (src : List Nat) : sourceChars src (src.length : Int) = src := by
  have h : ¬ ((src.length : Int) < 0) := by omega
  simp only [sourceChars, h, if_false, Int.toNat_ofNat, List.take_length]

theorem writeInto_full (out : List Nat) :
    writeInto (List.replicate out.length 0) out = out := by
  simp [writeInto]

theorem writeInto_length (buf out : List Nat) : (writeInto buf out).length = buf.length := by
  simp only [writeInto, List.length_append, List.length_take, List.length_drop]
  omega

theorem convResult_query {cch : Int} {out : List Nat} (hc : cch ≠ 0)
    (h1 : out.length < 2 ^ 31) : (convResult cch out 0).1 = (out.length : Int) := by
  have h2 : ¬ (2 ^ 31 ≤ out.length) := by omega
  simp only [convResult, hc, h2, if_false, if_true]

theorem convResult_fill {cch : Int} {out : List Nat} (hc : cch ≠ 0) (h0 : out ≠ [])
    (h1 : out.length < 2 ^ 31) : (convResult cch out out.length).2 = out := by
  have h2 : ¬ (2 ^ 31 ≤ out.length) := by omega
  have h3 : out.length ≠ 0 := by
    intro e; exact h0 (List.length_eq_zero.mp e)
  simp only [convResult, hc, h2, h3, if_false, lt_self_iff_false]

/-- On a source shorter than `2^31` bytes whose conversion is non-empty and shorter than `2^31`
units, `ToWString` over the standard codec returns the UTF-16 form of the decoded source. -/
theorem ToWString_std {s : List Nat} (hs : s ≠ []) (hl : s.length < 2 ^ 31)
    (h0 : utf16Encode (utf8Decode s) ≠ []) (h1 : (utf16Encode (utf8Decode s)).length < 2 ^ 31) :
    ToWString stdCodec s = .ok (utf16Encode (utf8Decode s)) := by
  have he : s.isEmpty = false := by
    cases s with
    | nil => exact absurd rfl hs
    | cons _ _ => rfl
  have hc : (s.length : Int) ≠ 0 := by
    have : s.length ≠ 0 := fun e => hs (List.length_eq_zero.mp e)
    omega
  have hp : ¬ (((utf16Encode (utf8Decode s)).length : Int) ≤ 0) := by
    have : (utf16Encode (utf8Decode s)).length ≠ 0 := fun e => h0 (List.length_eq_zero.mp e)
    omega
  simp only [ToWString, he, stdCodec, toInt32_of_lt hl, sourceChars_length, convResult_query hc h1,
    hp, if_false, Int.toNat_ofNat, convResult_fill hc h0 h1, writeInto_full]
  rfl

/-- The same for `ToUTF8`. -/
theorem ToUTF8_std {w : List Nat} (hw : w ≠ []) (hl : w.length < 2 ^ 31)
    (h0 : utf8Encode (utf16Decode w) ≠ []) (h1 : (utf8Encode (utf16Decode w)).length < 2 ^ 31) :
    ToUTF8 stdCodec w = .ok (utf8Encode (utf16Decode w)) := by
  have he : w.isEmpty = false := by
    cases w with
    | nil => exact absurd rfl hw
    | cons _ _ => rfl
  have hc : (w.length : Int) ≠ 0 := by
    have : w.length ≠ 0 := fun e => hw (List.length_eq_zero.mp e)
    omega
  have hp : ¬ (((utf8Encode (utf16Decode w)).length : Int) ≤ 0) := by
    have : (utf8Encode (utf16Decode w)).length ≠ 0 := fun e => h0 (List.length_eq_zero.mp e)
    omega
  simp only [ToUTF8, he, stdCodec, toInt32_of_lt hl, sourceChars_length, convResult_query hc h1,
    hp, if_false, Int.toNat_ofNat, convResult_fill hc h0 h1, writeInto_full]
  rfl

theorem utf8Valid_replicate (n fuel : Nat) (h : n ≤ fuel) :
    utf8ValidFuel fuel (List.replicate n 0x41) = true := by
  induction n generalizing fuel with
  | zero => cases fuel <;> rfl
  | succ k ih =>
    obtain ⟨f, rfl⟩ : ∃ f, fuel = f + 1 := ⟨fuel - 1, by omega⟩
    have hd : utf8DecodeChar (0x41 :: List.replicate k 0x41) = some (0x41, List.replicate k 0x41) := by
      simp [utf8DecodeChar]
    simp only [List.replicate_succ, utf8ValidFuel, hd]
    exact ih f (by omega)

theorem utf16Valid_replicate (n fuel : Nat) (h : n ≤ fuel) :
    utf16ValidFuel fuel (List.replicate n 0x41) = true := by
  induction n generalizing fuel with
  | zero => cases fuel <;> rfl
  | succ k ih =>
    obtain ⟨f, rfl⟩ : ∃ f, fuel = f + 1 := ⟨fuel - 1, by omega⟩
    have hd : utf16DecodeChar (0x41 :: List.replicate k 0x41) = some (0x41, List.replicate k 0x41) := by
      simp [utf16DecodeChar]
    simp only [List.replicate_succ, utf16ValidFuel, hd]
    exact ih f (by omega)

theorem isValidUTF8_replicate (n : Nat) : IsValidUTF8 (List.replicate n 0x41) := by
  unfold IsValidUTF8
  exact utf8Valid_replicate n _ (by rw [List.length_replicate])

theorem isValidUTF16_replicate (n : Nat) : IsValidUTF16 (List.replicate n 0x41) := by
  unfold IsValidUTF16
  exact utf16Valid_replicate n _ (by rw [List.length_replicate])

theorem toInt32_wrap : toInt32 (2 ^ 32 + 1) = 1 := by
  decide

/-- A string of `n` letters `A` whose length the `int` cast turns into `1` is converted as its
first letter only. -/
theorem ToWString_std_truncated (n : Nat) (h1 : toInt32 n = 1) (h2 : 1 ≤ n) :
    ToWString stdCodec (List.replicate n 0x41) = .ok [0x41] := by
  obtain ⟨k, rfl⟩ : ∃ k, n = k + 1 := ⟨n - 1, by omega⟩
  have hs : sourceChars (List.replicate (k + 1) 0x41) 1 = [0x41] := by
    simp [sourceChars, List.replicate_succ]
  simp only [ToWString, stdCodec, List.length_replicate, h1, hs]
  rfl

theorem ToUTF8_std_truncated (n : Nat) (h1 : toInt32 n = 1) (h2 : 1 ≤ n) :
    ToUTF8 stdCodec (List.replicate n 0x41) = .ok [0x41] := by
  obtain ⟨k, rfl⟩ : ∃ k, n = k + 1 := ⟨n - 1, by omega⟩
  have hs : sourceChars (List.replicate (k + 1) 0x41) 1 = [0x41] := by
    simp [sourceChars, List.replicate_succ]
  simp only [ToUTF8, stdCodec, List.length_replicate, h1, hs]
  rfl

theorem replicate_ne_singleton : [0x41] ≠ List.replicate (2 ^ 32 + 1) 0x41 := by
  intro e
  have h := congrArg List.length e
  simp only [List.length_replicate, List.length_singleton] at h
  omega

/-! ## Round trips (claims C1, C2) -/

/-- C1 (as stated, refuted): the valid UTF-8 string of `2^32 + 1` letters `A` does not survive
`ToUTF8 (ToWString s)`.  The cast `static_cast<int>(utf8String.size())` gives `1`, the platform
converts one byte, and the round trip returns the one-letter string. -/
theorem C1_roundtrip_narrow_counterexample :
    IsValidUTF8 (List.replicate (2 ^ 32 + 1) 0x41)
    ∧ (ToWString stdCodec (List.replicate (2 ^ 32 + 1) 0x41) >>= ToUTF8 stdCodec) = .ok [0x41]
    ∧ (ToWString stdCodec (List.replicate (2 ^ 32 + 1) 0x41) >>= ToUTF8 stdCodec)
        ≠ .ok (List.replicate (2 ^ 32 + 1) 0x41) := by
  have e : (ToWString stdCodec (List.replicate (2 ^ 32 + 1) 0x41) >>= ToUTF8 stdCodec)
      = .ok [0x41] := by
    rw [ToWString_std_truncated _ toInt32_wrap (by omega)]
    rfl
  refine ⟨isValidUTF8_replicate _, e, ?_⟩
  rw [e]
  intro h
  exact replicate_ne_singleton (Except.ok.inj h)

/-- C1 (amended): for every valid UTF-8 narrow string `s` of fewer than `2^31` bytes, with the
platform conversion being the standard codec, `ToUTF8 (ToWString s)` succeeds and equals `s`. -/
theorem C1_roundtrip_narrow (s : List Nat) (hv : IsValidUTF8 s) (hl : s.length < 2 ^ 31) :
    (ToWString stdCodec s >>= ToUTF8 stdCodec) = .ok s := by
  obtain ⟨cps, hcps, rfl⟩ := utf8Valid_encoding _ _ hv
  match cps with
  | [] => rfl
  | c :: cs =>
    have hne : (c :: cs) ≠ [] := by simp
    have hd : utf8Decode (utf8Encode (c :: cs)) = c :: cs :=
      utf8DecodeFuel_encode _ hcps _ (le_refl _)
    have h16 := utf16Encode_length_le (c :: cs)
    have hw : ToWString stdCodec (utf8Encode (c :: cs)) = .ok (utf16Encode (c :: cs)) := by
      have := ToWString_std (utf8Encode_ne_nil hne) hl
        (by rw [hd]; exact utf16Encode_ne_nil hne) (by rw [hd]; omega)
      rw [hd] at this
      exact this
    have hd16 : utf16Decode (utf16Encode (c :: cs)) = c :: cs :=
      utf16DecodeFuel_encode _ hcps _ (le_refl _)
    have hu : ToUTF8 stdCodec (utf16Encode (c :: cs)) = .ok (utf8Encode (c :: cs)) := by
      have := ToUTF8_std (utf16Encode_ne_nil hne) (by omega)
        (by rw [hd16]; exact utf8Encode_ne_nil hne) (by rw [hd16]; omega)
      rw [hd16] at this
      exact this
    rw [hw]
    exact hu

/-- Witness of C1 (amended) at the UTF-8 string of `A`, `é`, `€` and U+1F600. -/
theorem C1_roundtrip_narrow_witness :
    IsValidUTF8 [0x41, 0xC3, 0xA9, 0xE2, 0x82, 0xAC, 0xF0, 0x9F, 0x98, 0x80]
    ∧ (ToWString stdCodec [0x41, 0xC3, 0xA9, 0xE2, 0x82, 0xAC, 0xF0, 0x9F, 0x98, 0x80]
        >>= ToUTF8 stdCodec)
      = .ok [0x41, 0xC3, 0xA9, 0xE2, 0x82, 0xAC, 0xF0, 0x9F, 0x98, 0x80] :=
  ⟨by decide, C1_roundtrip_narrow [0x41, 0xC3, 0xA9, 0xE2, 0x82, 0xAC, 0xF0, 0x9F, 0x98, 0x80]
    (by decide) (by norm_num)⟩

/-- C2 (as stated, refuted): the valid UTF-16 string of `2^32 + 1` letters `A` does not survive
`ToWString (ToUTF8 w)`; the `int` cast of its size is `1` and one unit is converted. -/
theorem C2_roundtrip_wide_counterexample :
    IsValidUTF16 (List.replicate (2 ^ 32 + 1) 0x41)
    ∧ (ToUTF8 stdCodec (List.replicate (2 ^ 32 + 1) 0x41) >>= ToWString stdCodec) = .ok [0x41]
    ∧ (ToUTF8 stdCodec (List.replicate (2 ^ 32 + 1) 0x41) >>= ToWString stdCodec)
        ≠ .ok (List.replicate (2 ^ 32 + 1) 0x41) := by
  have e : (ToUTF8 stdCodec (List.replicate (2 ^ 32 + 1) 0x41) >>= ToWString stdCodec)
      = .ok [0x41] := by
    rw [ToUTF8_std_truncated _ toInt32_wrap (by omega)]
    rfl
  refine ⟨isValidUTF16_replicate _, e, ?_⟩
  rw [e]
  intro h
  exact replicate_ne_singleton (Except.ok.inj h)

/-- C2 (amended): for every valid UTF-16 wide string `w` whose UTF-8 form has fewer than `2^31`
bytes, with the platform conversion being the standard codec, `ToWString (ToUTF8 w)` succeeds
and equals `w`. -/
theorem C2_roundtrip_wide (w : List Nat) (hv : IsValidUTF16 w)
    (hl8 : (utf8Encode (utf16Decode w)).length < 2 ^ 31) :
    (ToUTF8 stdCodec w >>= ToWString stdCodec) = .ok w := by
  obtain ⟨cps, hcps, rfl⟩ := utf16Valid_encoding _ _ hv
  match cps with
  | [] => rfl
  | c :: cs =>
    have hne : (c :: cs) ≠ [] := by simp
    have hd16 : utf16Decode (utf16Encode (c :: cs)) = c :: cs :=
      utf16DecodeFuel_encode _ hcps _ (le_refl _)
    rw [hd16] at hl8
    have hl : (utf16Encode (c :: cs)).length < 2 ^ 31 :=
      lt_of_le_of_lt (utf16Encode_length_le _) hl8
    have hu : ToUTF8 stdCodec (utf16Encode (c :: cs)) = .ok (utf8Encode (c :: cs)) := by
      have := ToUTF8_std (utf16Encode_ne_nil hne) hl
        (by rw [hd16]; exact utf8Encode_ne_nil hne) (by rw [hd16]; exact hl8)
      rw [hd16] at this
      exact this
    have hd : utf8Decode (utf8Encode (c :: cs)) = c :: cs :=
      utf8DecodeFuel_encode _ hcps _ (le_refl _)
    have hw : ToWString stdCodec (utf8Encode (c :: cs)) = .ok (utf16Encode (c :: cs)) := by
      have := ToWString_std (utf8Encode_ne_nil hne) hl8
        (by rw [hd]; exact utf16Encode_ne_nil hne) (by rw [hd]; exact hl)
      rw [hd] at this
      exact this
    rw [hu]
    exact hw

/-- Witness of C2 (amended) at the UTF-16 string of `A`, `é`, `€` and U+1F600. -/
theorem C2_roundtrip_wide_witness :
    IsValidUTF16 [0x41, 0xE9, 0x20AC, 0xD83D, 0xDE00]
    ∧ (ToUTF8 stdCodec [0x41, 0xE9, 0x20AC, 0xD83D, 0xDE00] >>= ToWString stdCodec)
      = .ok [0x41, 0xE9, 0x20AC, 0xD83D, 0xDE00] :=
  ⟨by decide, C2_roundtrip_wide [0x41, 0xE9, 0x20AC, 0xD83D, 0xDE00] (by decide)
    (by norm_num [utf16Decode, utf16DecodeFuel, utf16DecodeChar, utf8Encode, utf8EncodeChar])⟩

/-! ## Registry lemmas -/

theorem Registry.find_erase_self (r : Registry) (k : List Nat) :
    Registry.find (Registry.erase r k) k = none := by
  induction r with
  | nil => rfl
  | cons p t ih =>
    obtain ⟨k1, v1⟩ := p
    by_cases h : k1 = k
    · simp only [Registry.erase, List.filter, h, ne_eq, not_true_eq_false, decide_False] at ih ⊢
      exact ih
    · simp only [Registry.erase, List.filter, h, ne_eq, not_false_eq_true, decide_True,
        Registry.find, if_false] at ih ⊢
      exact ih

theorem Registry.find_erase_ne (r : Registry) {k k2 : List Nat} (hne : k2 ≠ k) :
    Registry.find (Registry.erase r k) k2 = Registry.find r k2 := by
  induction r with
  | nil => rfl
  | cons p t ih =>
    obtain ⟨k1, v1⟩ := p
    by_cases h : k1 = k
    · have h2 : ¬ k1 = k2 := by rw [h]; exact fun e => hne e.symm
      simp only [Registry.erase, List.filter, h, ne_eq, not_true_eq_false, decide_False,
        Registry.find, h2, if_false] at ih ⊢
      rw [← h]
      simp only [h2, if_false]
      rw [h]
      exact ih
    · simp only [Registry.erase, List.filter, h, ne_eq, not_false_eq_true, decide_True,
        Registry.find] at ih ⊢
      rw [ih]

theorem Registry.find_assign_self (r : Registry) (k : List Nat) (v : Nat) :
    Registry.find (Registry.assign r k v) k = some v := by
  simp only [Registry.assign, Registry.find, if_true]

theorem Registry.find_assign_ne (r : Registry) {k k2 : List Nat} (v : Nat) (hne : k2 ≠ k) :
    Registry.find (Registry.assign r k v) k2 = Registry.find r k2 := by
  have h : ¬ k = k2 := fun e => hne e.symm
  simp only [Registry.assign, Registry.find, h, if_false]
  exact Registry.find_erase_ne r hne

/-- A class built by a constructor carries the wide form of the narrow name and the module. -/
theorem WindowClass.create_ok {P : Codec} {n : List Nat} {h st ex : Nat} {c : WindowClass}
    (hc : WindowClass.create P n h st ex = .ok c) :
    ToWString P n = .ok c.className_ ∧ c.instance_ = h := by
  unfold WindowClass.create at hc
  match hw : ToWString P n with
  | .error e => simp [hw] at hc
  | .ok wide =>
    simp only [hw, Except.ok.injEq] at hc
    subst hc
    exact ⟨rfl, rfl⟩

/-- The two outcomes of `Register`. -/
theorem Register_cases {σ : Type} (api : Win32 σ) (w : World σ) (c : WindowClass) :
    ((api.LoadCursor w.os 0 SystemCursors.Arrow = 0
        ∧ Register api w c = (.error errLoadCursor, w))
      ∨ (api.LoadCursor w.os 0 SystemCursors.Arrow ≠ 0
        ∧ (api.RegisterClass w.os
            (nativeDescriptor c (api.LoadCursor w.os 0 SystemCursors.Arrow))).1 = 0
        ∧ Register api w c = (.error errRegister,
            { os := (api.RegisterClass w.os
                (nativeDescriptor c (api.LoadCursor w.os 0 SystemCursors.Arrow))).2
              s_registeredClasses := w.s_registeredClasses })))
    ∨ (api.LoadCursor w.os 0 SystemCursors.Arrow ≠ 0
        ∧ (api.RegisterClass w.os
            (nativeDescriptor c (api.LoadCursor w.os 0 SystemCursors.Arrow))).1 ≠ 0
        ∧ Register api w c = (.ok (),
            { os := (api.RegisterClass w.os
                (nativeDescriptor c (api.LoadCursor w.os 0 SystemCursors.Arrow))).2
              s_registeredClasses :=
                Registry.assign w.s_registeredClasses c.className_ c.instance_ })) := by
  by_cases h1 : api.LoadCursor w.os 0 SystemCursors.Arrow = 0
  · left; left
    refine ⟨h1, ?_⟩
    simp only [Register, SystemCursors.LoadSystemCursor, h1, if_true]
  · by_cases h2 : (api.RegisterClass w.os
        (nativeDescriptor c (api.LoadCursor w.os 0 SystemCursors.Arrow))).1 = 0
    · left; right
      refine ⟨h1, h2, ?_⟩
      simp only [Register, SystemCursors.LoadSystemCursor, h1, if_false, h2, if_true]
    · right
      refine ⟨h1, h2, ?_⟩
      simp only [Register, SystemCursors.LoadSystemCursor, h1, if_false, h2,
        WindowClass.GetName, WindowClass.GetInstance]

/-- The two outcomes of `Unregister`. -/
theorem Unregister_cases {σ : Type} (api : Win32 σ) (w : World σ) (c : WindowClass) :
    ((api.UnregisterClass w.os (c_str c.className_) c.instance_).1 = false
      ∧ Unregister api w c = (.error errUnregister,
          { os := (api.UnregisterClass w.os (c_str c.className_) c.instance_).2
            s_registeredClasses := w.s_registeredClasses }))
    ∨ ((api.UnregisterClass w.os (c_str c.className_) c.instance_).1 = true
      ∧ Unregister api w c = (.ok (),
          { os := (api.UnregisterClass w.os (c_str c.className_) c.instance_).2
            s_registeredClasses := Registry.erase w.s_registeredClasses c.className_ })) := by
  by_cases h : (api.UnregisterClass w.os (c_str c.className_) c.instance_).1 = false
  · left
    refine ⟨h, ?_⟩
    simp only [Unregister, WindowClass.GetName, WindowClass.GetInstance, h, if_true]
  · right
    have h2 : (api.UnregisterClass w.os (c_str c.className_) c.instance_).1 = true := by
      simpa using h
    refine ⟨h2, ?_⟩
    simp only [Unregister, WindowClass.GetName, WindowClass.GetInstance, h2, Bool.true_eq_false,
      if_false]

/-! ## Register, Unregister and IsRegistered (claims C3 to C7) -/

/-- C3: after a successful `Register(c)`, with `c` constructed as `WindowClass(n, h)`,
`IsRegistered(n)` returns true and the registry maps the wide name of `c` to `h`; this holds
for every platform conversion, every behaviour of the operating system and every state. -/
theorem C3_register_then_registered {σ : Type} (P : Codec) (api : Win32 σ) (w : World σ)
    (n : List Nat) (h : Nat) (c : WindowClass)
    (hc : WindowClass.new P n h = .ok c) (hr : (Register api w c).1 = .ok ()) :
    IsRegistered P (Register api w c).2 n = .ok true
    ∧ Registry.find (Register api w c).2.s_registeredClasses c.GetName = some h := by
  obtain ⟨hn, hi⟩ := WindowClass.create_ok hc
  rcases Register_cases api w c with (⟨_, e⟩ | ⟨_, _, e⟩) | ⟨_, _, e⟩
  · rw [e] at hr; simp at hr
  · rw [e] at hr; simp at hr
  · rw [e]
    simp only [IsRegistered, hn, WindowClass.GetName, Registry.find_assign_self, hi,
      Option.isSome_some, and_self]

/-- Witness of C3: the class `Wn` of module `0x400000`, registered in the initial state. -/
theorem C3_register_then_registered_witness :
    WindowClass.new stdCodec [0x57, 0x6E] 0x400000 = .ok ⟨[0x57, 0x6E], 0x400000, 0, 0⟩
    ∧ IsRegistered stdCodec
        (Register (classTable 65539 false) World.initial ⟨[0x57, 0x6E], 0x400000, 0, 0⟩).2
        [0x57, 0x6E] = .ok true :=
  ⟨by decide,
    (C3_register_then_registered stdCodec (classTable 65539 false) World.initial [0x57, 0x6E]
      0x400000 ⟨[0x57, 0x6E], 0x400000, 0, 0⟩ (by decide) (by decide)).1⟩

/-- C4: after a successful `Unregister(c)`, with `c` constructed from the narrow name `n`,
`IsRegistered(n)` returns false, whatever the registry held before. -/
theorem C4_unregister_then_not_registered {σ : Type} (P : Codec) (api : Win32 σ) (w : World σ)
    (n : List Nat) (h st ex : Nat) (c : WindowClass)
    (hc : WindowClass.create P n h st ex = .ok c) (hr : (Unregister api w c).1 = .ok ()) :
    IsRegistered P (Unregister api w c).2 n = .ok false := by
  obtain ⟨hn, _⟩ := WindowClass.create_ok hc
  rcases Unregister_cases api w c with ⟨_, e⟩ | ⟨_, e⟩
  · rw [e] at hr; simp at hr
  · rw [e]
    simp only [IsRegistered, hn, Registry.find_erase_self, Option.isSome_none]

/-- Witness of C4: the class `Wn` is in the class table and twice in the registry. -/
theorem C4_unregister_then_not_registered_witness :
    WindowClass.create stdCodec [0x57, 0x6E] 7 0 0 = .ok ⟨[0x57, 0x6E], 7, 0, 0⟩
    ∧ IsRegistered stdCodec
        (Unregister (classTable 0 false)
          { os := [([0x57, 0x4E], 7)]
            s_registeredClasses := [([0x57, 0x6E], 7), ([0x41], 7), ([0x57, 0x6E], 9)] }
          ⟨[0x57, 0x6E], 7, 0, 0⟩).2
        [0x57, 0x6E] = .ok false :=
  ⟨by decide,
    C4_unregister_then_not_registered stdCodec (classTable 0 false)
      { os := [([0x57, 0x4E], 7)]
        s_registeredClasses := [([0x57, 0x6E], 7), ([0x41], 7), ([0x57, 0x6E], 9)] }
      [0x57, 0x6E] 7 0 0 ⟨[0x57, 0x6E], 7, 0, 0⟩ (by decide) (by decide)⟩

/-- C5: whenever the arrow cursor cannot be loaded or the operating system refuses the
registration, `Register(c)` throws a runtime error (the cursor error in the first case, the
registration error in the second) and the registry is the registry before the call. -/
theorem C5_register_failure_keeps_registry {σ : Type} (api : Win32 σ) (w : World σ)
    (c : WindowClass)
    (hf : api.LoadCursor w.os 0 SystemCursors.Arrow = 0
      ∨ (api.RegisterClass w.os
          (nativeDescriptor c (api.LoadCursor w.os 0 SystemCursors.Arrow))).1 = 0) :
    (Register api w c).1
        = .error (if api.LoadCursor w.os 0 SystemCursors.Arrow = 0 then errLoadCursor
                  else errRegister)
    ∧ (Register api w c).2.s_registeredClasses = w.s_registeredClasses := by
  rcases Register_cases api w c with (⟨h1, e⟩ | ⟨h1, _, e⟩) | ⟨h1, h2, e⟩
  · rw [e]; simp only [h1, if_true, and_self]
  · rw [e]; simp only [h1, if_false, and_self]
  · rcases hf with hf | hf
    · exact absurd hf h1
    · exact absurd hf h2

/-- Witness of C5: the operating system refuses the registration of `Wn`. -/
theorem C5_register_failure_keeps_registry_witness :
    (Register (classTable 65539 true) { os := [], s_registeredClasses := [([0x41], 7)] }
        ⟨[0x57, 0x6E], 7, 0, 0⟩).1 = .error errRegister
    ∧ (Register (classTable 65539 true) { os := [], s_registeredClasses := [([0x41], 7)] }
        ⟨[0x57, 0x6E], 7, 0, 0⟩).2.s_registeredClasses = [([0x41], 7)] :=
  C5_register_failure_keeps_registry (classTable 65539 true)
    { os := [], s_registeredClasses := [([0x41], 7)] } ⟨[0x57, 0x6E], 7, 0, 0⟩
    (Or.inr (by decide))

/-- C7: whenever the operating system refuses to unregister the class, `Unregister(c)` throws a
runtime error and leaves the registry unchanged; an entry under the name of `c` stays. -/
theorem C7_unregister_failure_keeps_registry {σ : Type} (api : Win32 σ) (w : World σ)
    (c : WindowClass)
    (hf : (api.UnregisterClass w.os (c_str c.GetName) c.GetInstance).1 = false) :
    (Unregister api w c).1 = .error errUnregister
    ∧ (Unregister api w c).2.s_registeredClasses = w.s_registeredClasses
    ∧ ∀ h, Registry.find w.s_registeredClasses c.GetName = some h →
        Registry.find (Unregister api w c).2.s_registeredClasses c.GetName = some h := by
  rcases Unregister_cases api w c with ⟨_, e⟩ | ⟨h1, _⟩
  · rw [e]
    exact ⟨rfl, rfl, fun _ hh => hh⟩
  · simp only [WindowClass.GetName, WindowClass.GetInstance] at hf
    rw [hf] at h1
    exact absurd h1 (by decide)

/-- Witness of C7: the operating system refuses to unregister the registered class `Wn`. -/
theorem C7_unregister_failure_keeps_registry_witness :
    (Unregister (classTable 0 true)
        { os := [([0x57, 0x4E], 7)], s_registeredClasses := [([0x57, 0x6E], 7)] }
        ⟨[0x57, 0x6E], 7, 0, 0⟩).1 = .error errUnregister
    ∧ (Unregister (classTable 0 true)
        { os := [([0x57, 0x4E], 7)], s_registeredClasses := [([0x57, 0x6E], 7)] }
        ⟨[0x57, 0x6E], 7, 0, 0⟩).2.s_registeredClasses = [([0x57, 0x6E], 7)] :=
  ⟨(C7_unregister_failure_keeps_registry (classTable 0 true)
      { os := [([0x57, 0x4E], 7)], s_registeredClasses := [([0x57, 0x6E], 7)] }
      ⟨[0x57, 0x6E], 7, 0, 0⟩ (by decide)).1,
   (C7_unregister_failure_keeps_registry (classTable 0 true)
      { os := [([0x57, 0x4E], 7)], s_registeredClasses := [([0x57, 0x6E], 7)] }
      ⟨[0x57, 0x6E], 7, 0, 0⟩ (by decide)).2.1⟩

/-! ## The registry against the class table (claims C6, C8) -/

/-- `Register` over the class table, computed. -/
theorem Register_classTable (ident : List Nat → Nat → List Nat × Nat) (cursor : Nat)
    (refuse : Bool) (w : World ClassTable) (c : WindowClass) :
    Register (classTableOver ident cursor refuse) w c
      = if cursor = 0 then (.error errLoadCursor, w)
        else if refuse = true ∨ classIdentity ident c ∈ w.os
          then (.error errRegister, w)
        else (.ok (),
          { os := classIdentity ident c :: w.os
            s_registeredClasses := Registry.assign w.s_registeredClasses c.className_ c.instance_ }) := by
  obtain ⟨os, reg⟩ := w
  by_cases h1 : cursor = 0
  · simp [Register, SystemCursors.LoadSystemCursor, classTableOver, h1]
  · by_cases h2 : refuse = true ∨ classIdentity ident c ∈ os
    · simp only [h1, if_false, h2, if_true]
      simp only [classIdentity] at h2
      simp only [Register, SystemCursors.LoadSystemCursor, classTableOver, h1, if_false,
        nativeDescriptor, WindowClass.GetName, WindowClass.GetInstance, Bool.or_eq_true,
        decide_eq_true_eq, h2, if_true]
    · simp only [h1, if_false, h2]
      simp only [classIdentity] at h2 ⊢
      simp only [Register, SystemCursors.LoadSystemCursor, classTableOver, h1, if_false,
        nativeDescriptor, WindowClass.GetName, WindowClass.GetInstance, Bool.or_eq_true,
        decide_eq_true_eq, h2]
      simp

/-- `Unregister` over the class table, computed. -/
theorem Unregister_classTable (ident : List Nat → Nat → List Nat × Nat) (cursor : Nat)
    (refuse : Bool) (w : World ClassTable) (c : WindowClass) :
    Unregister (classTableOver ident cursor refuse) w c
      = if refuse = true ∨ classIdentity ident c ∉ w.os
          then (.error errUnregister, w)
        else (.ok (),
          { os := w.os.filter (fun p => decide (p ≠ classIdentity ident c))
            s_registeredClasses := Registry.erase w.s_registeredClasses c.className_ }) := by
  obtain ⟨os, reg⟩ := w
  by_cases h2 : refuse = true ∨ classIdentity ident c ∉ os
  · simp only [h2, if_true]
    simp only [classIdentity] at h2
    simp only [Unregister, classTableOver, WindowClass.GetName, WindowClass.GetInstance,
      Bool.or_eq_true, decide_eq_true_eq, h2, if_true]
  · simp only [h2, if_false]
    simp only [classIdentity] at h2 ⊢
    simp only [Unregister, classTableOver, WindowClass.GetName, WindowClass.GetInstance,
      Bool.or_eq_true, decide_eq_true_eq, h2, if_false]
    simp

theorem runCalls_cons (ident : List Nat → Nat → List Nat × Nat) (w : World ClassTable)
    (call : Call) (calls : List Call) :
    runCalls ident w (call :: calls) = runCalls ident (Call.run ident w call) calls := rfl

theorem c_str_of_not_mem {n : List Nat} (h : 0 ∉ n) : c_str n = n := by
  unfold c_str
  rw [List.takeWhile_eq_self_iff]
  intro x hx
  have : x ≠ 0 := fun e => h (e ▸ hx)
  simpa using this

/-- A class in the table stays there through a call that is not an `Unregister` of it. -/
theorem mem_os_run (ident : List Nat → Nat → List Nat × Nat) (w : World ClassTable)
    (call : Call) (x : List Nat × Nat) (hx : x ∈ w.os)
    (hcall : ∀ d r, call = .unregister d r → classIdentity ident d ≠ x) :
    x ∈ (Call.run ident w call).os := by
  cases call with
  | register c cursor refuse =>
    simp only [Call.run, Register_classTable]
    split_ifs
    · exact hx
    · exact hx
    · exact List.mem_cons_of_mem _ hx
  | unregister c refuse =>
    simp only [Call.run, Unregister_classTable]
    split_ifs
    · exact hx
    · have hne := hcall c refuse rfl
      simp only [List.mem_filter, ne_eq, decide_not, Bool.not_eq_true', decide_eq_false_iff_not]
      exact ⟨hx, fun e => hne e.symm⟩

theorem mem_os_runCalls (ident : List Nat → Nat → List Nat × Nat) (calls : List Call)
    (w : World ClassTable) (x : List Nat × Nat) (hx : x ∈ w.os)
    (hcalls : ∀ d r, Call.unregister d r ∈ calls → classIdentity ident d ≠ x) :
    x ∈ (runCalls ident w calls).os := by
  induction calls generalizing w with
  | nil => exact hx
  | cons call rest ih =>
    rw [runCalls_cons]
    apply ih
    · exact mem_os_run ident w call x hx
        (fun d r e => hcalls d r (by rw [e]; exact List.mem_cons_self _ _))
    · exact fun d r hm => hcalls d r (List.mem_cons_of_mem _ hm)

/-- C6 (as stated, refuted): class `A` is registered for module 1 and then, with nothing
unregistered, for module 2.  The operating system keeps the two as different classes, the second
`Register` succeeds and replaces the registry entry of `A`. -/
theorem C6_second_register_fails_counterexample :
    (Register (classTable 65539 false) World.initial ⟨[0x41], 1, 0, 0⟩).1 = .ok ()
    ∧ (Register (classTable 65539 false)
        (Register (classTable 65539 false) World.initial ⟨[0x41], 1, 0, 0⟩).2
        ⟨[0x41], 2, 0, 0⟩).1 = .ok ()
    ∧ (Register (classTable 65539 false) World.initial
        ⟨[0x41], 1, 0, 0⟩).2.s_registeredClasses = [([0x41], 1)]
    ∧ (Register (classTable 65539 false)
        (Register (classTable 65539 false) World.initial ⟨[0x41], 1, 0, 0⟩).2
        ⟨[0x41], 2, 0, 0⟩).2.s_registeredClasses = [([0x41], 2)] := by
  decide

/-- C6 (amended): for every class name and module, after a successful `Register` of a class of
that name and module, and any calls in between that do not unregister that class, a second
`Register` of a class of the same name and the same module fails with an error and leaves the
registry (and the class table) as it was before the failed call; this holds for every way the
system may identify classes. -/
theorem C6_second_register_fails (ident : List Nat → Nat → List Nat × Nat)
    (w : World ClassTable) (c c2 : WindowClass)
    (cursor cursor2 : Nat) (refuse refuse2 : Bool) (between : List Call)
    (h1 : (Register (classTableOver ident cursor refuse) w c).1 = .ok ())
    (hb : ∀ d r, Call.unregister d r ∈ between →
      classIdentity ident d ≠ classIdentity ident c)
    (hn : c2.className_ = c.className_) (hi : c2.instance_ = c.instance_) :
    (∃ e, (Register (classTableOver ident cursor2 refuse2)
        (runCalls ident (Register (classTableOver ident cursor refuse) w c).2 between) c2).1
          = .error e)
    ∧ (Register (classTableOver ident cursor2 refuse2)
        (runCalls ident (Register (classTableOver ident cursor refuse) w c).2 between)
          c2).2.s_registeredClasses
      = (runCalls ident (Register (classTableOver ident cursor refuse) w c).2
          between).s_registeredClasses
    ∧ (Register (classTableOver ident cursor2 refuse2)
        (runCalls ident (Register (classTableOver ident cursor refuse) w c).2 between) c2).2.os
      = (runCalls ident (Register (classTableOver ident cursor refuse) w c).2 between).os := by
  have hmem : classIdentity ident c ∈ (Register (classTableOver ident cursor refuse) w c).2.os := by
    rw [Register_classTable] at h1 ⊢
    by_cases a : cursor = 0
    · simp [a] at h1
    · by_cases b : refuse = true ∨ classIdentity ident c ∈ w.os
      · simp [a, b] at h1
      · simp only [a, b, if_false]
        exact List.mem_cons_self _ _
  have hmem2 := mem_os_runCalls ident between _ _ hmem hb
  have hid : classIdentity ident c2 = classIdentity ident c := by
    simp only [classIdentity, hn, hi]
  generalize runCalls ident (Register (classTableOver ident cursor refuse) w c).2 between = w1
    at hmem2 ⊢
  rw [Register_classTable, hid]
  split_ifs with a b
  · exact ⟨⟨_, rfl⟩, rfl, rfl⟩
  · exact ⟨⟨_, rfl⟩, rfl, rfl⟩
  · exact absurd (Or.inr hmem2) b

/-- Witness of C6 (amended): `Wn` is registered, another class is registered and unregistered,
and `Wn` is registered again. -/
theorem C6_second_register_fails_witness :
    (Register (classTable 65539 false)
        (runCalls atomIdentity
          (Register (classTable 65539 false) World.initial ⟨[0x57, 0x6E], 7, 0, 0⟩).2
          [.register ⟨[0x41], 7, 0, 0⟩ 65539 false, .unregister ⟨[0x41], 7, 0, 0⟩ false])
        ⟨[0x57, 0x6E], 7, 0, 0⟩).1 = .error errRegister
    ∧ (Register (classTable 65539 false)
        (runCalls atomIdentity
          (Register (classTable 65539 false) World.initial ⟨[0x57, 0x6E], 7, 0, 0⟩).2
          [.register ⟨[0x41], 7, 0, 0⟩ 65539 false, .unregister ⟨[0x41], 7, 0, 0⟩ false])
        ⟨[0x57, 0x6E], 7, 0, 0⟩).2.s_registeredClasses = [([0x57, 0x6E], 7)] :=
  ⟨by decide,
   (C6_second_register_fails atomIdentity World.initial ⟨[0x57, 0x6E], 7, 0, 0⟩
      ⟨[0x57, 0x6E], 7, 0, 0⟩ 65539 65539 false false
      [.register ⟨[0x41], 7, 0, 0⟩ 65539 false, .unregister ⟨[0x41], 7, 0, 0⟩ false]
      (by decide)
      (by
        intro d r hm
        simp only [List.mem_cons, List.mem_singleton, Call.unregister.injEq, List.not_mem_nil,
          or_false, false_or, reduceCtorEq] at hm
        obtain ⟨rfl, _⟩ := hm
        decide)
      rfl rfl).2.1⟩

theorem EntriesRegistered_run (ident : List Nat → Nat → List Nat × Nat) (calls : List Call)
    (w : World ClassTable) (call : Call) (hmem : call ∈ calls)
    (hone : OneNamePerClass ident calls) (hw : EntriesRegistered ident calls w) :
    EntriesRegistered ident calls (Call.run ident w call) := by
  cases call with
  | register c cursor refuse =>
    simp only [Call.run, Register_classTable]
    split_ifs
    · exact hw
    · exact hw
    · intro n h hf
      by_cases e : n = c.className_
      · subst e
        rw [Registry.find_assign_self] at hf
        cases hf
        exact ⟨⟨_, hmem, rfl, rfl⟩, List.mem_cons_self _ _⟩
      · rw [Registry.find_assign_ne _ _ e] at hf
        obtain ⟨hp, ho⟩ := hw n h hf
        exact ⟨hp, List.mem_cons_of_mem _ ho⟩
  | unregister c refuse =>
    simp only [Call.run, Unregister_classTable]
    split_ifs
    · exact hw
    · intro n h hf
      by_cases e : n = c.className_
      · subst e
        rw [Registry.find_erase_self] at hf
        cases hf
      · rw [Registry.find_erase_ne _ e] at hf
        obtain ⟨⟨d, hd, hdn, hdi⟩, ho⟩ := hw n h hf
        refine ⟨⟨d, hd, hdn, hdi⟩, ?_⟩
        simp only [List.mem_filter, ne_eq, decide_not, Bool.not_eq_true', decide_eq_false_iff_not]
        refine ⟨ho, fun e2 => ?_⟩
        have hid : classIdentity ident d.windowClass
            = classIdentity ident (Call.unregister c refuse).windowClass := by
          have e3 : classIdentity ident d.windowClass = ident (c_str n) h := by
            rw [classIdentity, hdn, hdi]
          exact e3.trans e2
        exact e (hdn.symm.trans (hone d hd _ hmem hid))

theorem ClassesEntered_run (ident : List Nat → Nat → List Nat × Nat) (calls : List Call)
    (w : World ClassTable) (call : Call) (hmem : call ∈ calls)
    (hmod : OneModulePerName calls)
    (hw : ClassesEntered ident calls w) : ClassesEntered ident calls (Call.run ident w call) := by
  cases call with
  | register c cursor refuse =>
    simp only [Call.run, Register_classTable]
    split_ifs
    · exact hw
    · exact hw
    · intro k hin
      rcases List.mem_cons.mp hin with e | hin
      · subst e
        exact ⟨_, hmem, rfl, Registry.find_assign_self _ _ _⟩
      · obtain ⟨d, hd, hdk, hf⟩ := hw k hin
        refine ⟨d, hd, hdk, ?_⟩
        by_cases e : d.windowClass.className_ = c.className_
        · have hdc : d.windowClass.instance_ = c.instance_ :=
            hmod d hd (Call.register c cursor refuse) hmem e
          rw [e, Registry.find_assign_self, hdc]
        · rw [Registry.find_assign_ne _ _ e]
          exact hf
  | unregister c refuse =>
    simp only [Call.run, Unregister_classTable]
    split_ifs
    · exact hw
    · intro k hin
      simp only [List.mem_filter, ne_eq, decide_not, Bool.not_eq_true', decide_eq_false_iff_not]
        at hin
      obtain ⟨hin, hne⟩ := hin
      obtain ⟨d, hd, hdk, hf⟩ := hw k hin
      refine ⟨d, hd, hdk, ?_⟩
      by_cases e : d.windowClass.className_ = c.className_
      · have hdc : d.windowClass.instance_ = c.instance_ :=
          hmod d hd (Call.unregister c refuse) hmem e
        exact absurd (by rw [← hdk]; simp only [classIdentity, e, hdc]) hne
      · rw [Registry.find_erase_ne _ e]
        exact hf

theorem EntriesRegistered_runCalls (ident : List Nat → Nat → List Nat × Nat)
    (all calls : List Call) (w : World ClassTable) (hsub : ∀ call ∈ calls, call ∈ all)
    (hone : OneNamePerClass ident all) (hw : EntriesRegistered ident all w) :
    EntriesRegistered ident all (runCalls ident w calls) := by
  induction calls generalizing w with
  | nil => exact hw
  | cons call rest ih =>
    rw [runCalls_cons]
    exact ih _ (fun x hx => hsub x (List.mem_cons_of_mem _ hx))
      (EntriesRegistered_run ident all w call (hsub call (List.mem_cons_self _ _)) hone hw)

theorem ClassesEntered_runCalls (ident : List Nat → Nat → List Nat × Nat)
    (all calls : List Call) (w : World ClassTable) (hsub : ∀ call ∈ calls, call ∈ all)
    (hmod : OneModulePerName all)
    (hw : ClassesEntered ident all w) : ClassesEntered ident all (runCalls ident w calls) := by
  induction calls generalizing w with
  | nil => exact hw
  | cons call rest ih =>
    rw [runCalls_cons]
    exact ih _ (fun x hx => hsub x (List.mem_cons_of_mem _ hx))
      (ClassesEntered_run ident all w call (hsub call (List.mem_cons_self _ _)) hmod hw)

/-- C8 (as stated, refuted): class `A` is registered for module 1, then for module 2, then
unregistered for module 1.  All three calls succeed; the registry has no entry `A` while the
operating system still holds class `A` of module 2. -/
theorem C8_registry_os_sync_counterexample :
    runCalls atomIdentity World.initial
        [.register ⟨[0x41], 1, 0, 0⟩ 65539 false, .register ⟨[0x41], 2, 0, 0⟩ 65539 false,
          .unregister ⟨[0x41], 1, 0, 0⟩ false]
      = { os := [([0x41], 2)], s_registeredClasses := [] }
    ∧ ¬ InSync atomIdentity (runCalls atomIdentity World.initial
        [.register ⟨[0x41], 1, 0, 0⟩ 65539 false, .register ⟨[0x41], 2, 0, 0⟩ 65539 false,
          .unregister ⟨[0x41], 1, 0, 0⟩ false]) := by
  have e : runCalls atomIdentity World.initial
        [.register ⟨[0x41], 1, 0, 0⟩ 65539 false, .register ⟨[0x41], 2, 0, 0⟩ 65539 false,
          .unregister ⟨[0x41], 1, 0, 0⟩ false]
      = { os := [([0x41], 2)], s_registeredClasses := [] } := by
    rfl
  refine ⟨e, ?_⟩
  rw [e]
  intro h
  have h2 := (h [0x41]).mpr ⟨2, by decide⟩
  simp [Registry.find] at h2

/-- C8 (amended): in every state reachable from the empty registry and the empty class table by
`Register` and `Unregister` calls, successful or failing, in which two classes that the
operating system takes for one class always carry the same class name, every registry entry
names a class that is registered with the operating system under the stored module; and when
moreover no class name is used with two different modules, the name of a class of these calls
has a registry entry if and only if the class is registered with the operating system.  This
holds for every way the system may identify classes. -/
theorem C8_registry_os_sync (ident : List Nat → Nat → List Nat × Nat) (calls : List Call)
    (hone : OneNamePerClass ident calls) :
    (∀ n h, Registry.find (runCalls ident World.initial calls).s_registeredClasses n = some h →
      ident (c_str n) h ∈ (runCalls ident World.initial calls).os)
    ∧ (OneModulePerName calls → InSyncOn ident calls (runCalls ident World.initial calls)) := by
  have h0 : EntriesRegistered ident calls World.initial := by
    intro n h hf
    simp [World.initial, Registry.find] at hf
  have hA := EntriesRegistered_runCalls ident calls calls World.initial (fun _ hx => hx) hone h0
  refine ⟨fun n h hf => (hA n h hf).2, fun hmod a ha => ?_⟩
  have h1 : ClassesEntered ident calls World.initial := by
    intro k hin
    simp [World.initial] at hin
  have hB := ClassesEntered_runCalls ident calls calls World.initial (fun _ hx => hx) hmod h1
  constructor
  · intro hs
    obtain ⟨h, hh⟩ := Option.isSome_iff_exists.mp hs
    obtain ⟨⟨d, hd, hdn, hdi⟩, ho⟩ := hA _ h hh
    have hai : a.windowClass.instance_ = h := (hmod d hd a ha hdn).symm.trans hdi
    simp only [classIdentity, hai]
    exact ho
  · intro hin
    obtain ⟨d, hd, hdk, hf⟩ := hB _ hin
    rw [← hone d hd a ha hdk, hf]
    rfl

/-- Witness of C8 (amended): `Wn` and `A` are registered, a second registration of `Wn` fails,
and `Wn` is unregistered. -/
theorem C8_registry_os_sync_witness :
    OneNamePerClass atomIdentity
      [.register ⟨[0x57, 0x6E], 7, 0, 0⟩ 65539 false, .register ⟨[0x41], 7, 0, 0⟩ 65539 false,
        .register ⟨[0x57, 0x6E], 7, 0, 0⟩ 65539 false, .unregister ⟨[0x57, 0x6E], 7, 0, 0⟩ false]
    ∧ InSyncOn atomIdentity
      [.register ⟨[0x57, 0x6E], 7, 0, 0⟩ 65539 false, .register ⟨[0x41], 7, 0, 0⟩ 65539 false,
        .register ⟨[0x57, 0x6E], 7, 0, 0⟩ 65539 false, .unregister ⟨[0x57, 0x6E], 7, 0, 0⟩ false]
      (runCalls atomIdentity World.initial
        [.register ⟨[0x57, 0x6E], 7, 0, 0⟩ 65539 false, .register ⟨[0x41], 7, 0, 0⟩ 65539 false,
          .register ⟨[0x57, 0x6E], 7, 0, 0⟩ 65539 false,
          .unregister ⟨[0x57, 0x6E], 7, 0, 0⟩ false]) :=
  ⟨by unfold OneNamePerClass; decide,
   (C8_registry_os_sync atomIdentity
    [.register ⟨[0x57, 0x6E], 7, 0, 0⟩ 65539 false, .register ⟨[0x41], 7, 0, 0⟩ 65539 false,
      .register ⟨[0x57, 0x6E], 7, 0, 0⟩ 65539 false, .unregister ⟨[0x57, 0x6E], 7, 0, 0⟩ false]
    (by unfold OneNamePerClass; decide)).2 (by unfold OneModulePerName; decide)⟩

/-- A name with a NUL character: the operating system sees the name up to the NUL, so that
unregistering the class named `A`, NUL, `C` removes the class registered under the name `A`,
NUL, `B` and leaves its registry entry. -/
theorem nul_name_leaves_entry :
    runCalls atomIdentity World.initial
        [.register ⟨[0x41, 0, 0x42], 1, 0, 0⟩ 65539 false, .unregister ⟨[0x41, 0, 0x43], 1, 0, 0⟩ false]
      = { os := [], s_registeredClasses := [([0x41, 0, 0x42], 1)] } := by
  rfl

/-- Names that differ by case: the operating system takes `Wn` and `wn` of one module for one
class, so that unregistering `wn` removes the class registered as `Wn` and leaves the registry
entry `Wn`; the two calls do not satisfy `OneNamePerClass`. -/
theorem case_name_leaves_entry :
    runCalls atomIdentity World.initial
        [.register ⟨[0x57, 0x6E], 7, 0, 0⟩ 65539 false, .unregister ⟨[0x77, 0x6E], 7, 0, 0⟩ false]
      = { os := [], s_registeredClasses := [([0x57, 0x6E], 7)] }
    ∧ ¬ OneNamePerClass atomIdentity
        [.register ⟨[0x57, 0x6E], 7, 0, 0⟩ 65539 false, .unregister ⟨[0x77, 0x6E], 7, 0, 0⟩ false] := by
  refine ⟨rfl, ?_⟩
  unfold OneNamePerClass
  decide

/-- A name in another case: after `Wn` alone is registered, the operating system has a class
that answers to the name `wn`, for which the registry has no entry; hence the agreement is
stated for the names of the classes of the calls. -/
theorem other_case_has_no_entry :
    runCalls atomIdentity World.initial [.register ⟨[0x57, 0x6E], 7, 0, 0⟩ 65539 false]
      = { os := [([0x57, 0x4E], 7)], s_registeredClasses := [([0x57, 0x6E], 7)] }
    ∧ ¬ InSync atomIdentity
        (runCalls atomIdentity World.initial [.register ⟨[0x57, 0x6E], 7, 0, 0⟩ 65539 false]) := by
  have e : runCalls atomIdentity World.initial [.register ⟨[0x57, 0x6E], 7, 0, 0⟩ 65539 false]
      = { os := [([0x57, 0x4E], 7)], s_registeredClasses := [([0x57, 0x6E], 7)] } := by
    rfl
  refine ⟨e, ?_⟩
  rw [e]
  intro h
  have h2 := (h [0x77, 0x6E]).mpr ⟨7, by decide⟩
  simp [Registry.find] at h2

/-! ## The system DPI category (claim C9) -/

/-- C9: for every raw system DPI value `d` (an unsigned 32-bit number), `GetSystemDPIAwareness`
returns `Unaware` if `d <= 96`, `SystemAware` if `96 < d <= 120`, `PerMonitorAwareV2` if
`120 < d <= 144` and `PerMonitorAware` if `d > 144`; 96, 97, 121 and 145 give `Unaware`,
`SystemAware`, `PerMonitorAwareV2` and `PerMonitorAware`; and two systems with the same raw
value get the same result. -/
theorem C9_system_dpi_buckets (g : Gdi) :
    systemDPI g < 2 ^ 32
    ∧ (systemDPI g ≤ 96 → GetSystemDPIAwareness g = DPIAwareness.Unaware)
    ∧ (96 < systemDPI g → systemDPI g ≤ 120 → GetSystemDPIAwareness g = DPIAwareness.SystemAware)
    ∧ (120 < systemDPI g → systemDPI g ≤ 144 →
        GetSystemDPIAwareness g = DPIAwareness.PerMonitorAwareV2)
    ∧ (144 < systemDPI g → GetSystemDPIAwareness g = DPIAwareness.PerMonitorAware)
    ∧ (systemDPI g = 96 → GetSystemDPIAwareness g = DPIAwareness.Unaware)
    ∧ (systemDPI g = 97 → GetSystemDPIAwareness g = DPIAwareness.SystemAware)
    ∧ (systemDPI g = 121 → GetSystemDPIAwareness g = DPIAwareness.PerMonitorAwareV2)
    ∧ (systemDPI g = 145 → GetSystemDPIAwareness g = DPIAwareness.PerMonitorAware)
    ∧ (∀ g2 : Gdi, systemDPI g2 = systemDPI g →
        GetSystemDPIAwareness g2 = GetSystemDPIAwareness g) := by
  have hlt : systemDPI g < 2 ^ 32 := by
    simp only [systemDPI, toUInt32]
    omega
  refine ⟨hlt, ?_, ?_, ?_, ?_, ?_, ?_, ?_, ?_, ?_⟩
  · intro h; simp only [GetSystemDPIAwareness, h, if_true]
  · intro h1 h2
    have : ¬ systemDPI g ≤ 96 := by omega
    simp only [GetSystemDPIAwareness, this, h2, if_false, if_true]
  · intro h1 h2
    have a : ¬ systemDPI g ≤ 96 := by omega
    have b : ¬ systemDPI g ≤ 120 := by omega
    simp only [GetSystemDPIAwareness, a, b, h2, if_false, if_true]
  · intro h1
    have a : ¬ systemDPI g ≤ 96 := by omega
    have b : ¬ systemDPI g ≤ 120 := by omega
    have c : ¬ systemDPI g ≤ 144 := by omega
    simp only [GetSystemDPIAwareness, a, b, c, if_false]
  · intro h; simp only [GetSystemDPIAwareness, h]; rfl
  · intro h; simp only [GetSystemDPIAwareness, h]; rfl
  · intro h; simp only [GetSystemDPIAwareness, h]; rfl
  · intro h; simp only [GetSystemDPIAwareness, h]; rfl
  · intro g2 h; simp only [GetSystemDPIAwareness, h]

/-! ## The conversion error (claim C10) -/

/-- C10: for every non-empty input, `ToUTF8` throws the conversion error exactly when the size
query of the platform reports a size that is not positive, and otherwise returns a string whose
length is the reported size; the same holds for `ToWString`. -/
theorem C10_conversion_error_iff (P : Codec) (w s : List Nat) (hw : w ≠ []) (hs : s ≠ []) :
    ((ToUTF8 P w = .error errToUTF8 ↔ (P.WideCharToMultiByte w (toInt32 w.length) 0).1 ≤ 0)
      ∧ (0 < (P.WideCharToMultiByte w (toInt32 w.length) 0).1 →
          ∃ r, ToUTF8 P w = .ok r
            ∧ (r.length : Int) = (P.WideCharToMultiByte w (toInt32 w.length) 0).1))
    ∧ ((ToWString P s = .error errToWString ↔ (P.MultiByteToWideChar s (toInt32 s.length) 0).1 ≤ 0)
      ∧ (0 < (P.MultiByteToWideChar s (toInt32 s.length) 0).1 →
          ∃ r, ToWString P s = .ok r
            ∧ (r.length : Int) = (P.MultiByteToWideChar s (toInt32 s.length) 0).1)) := by
  have hwe : w.isEmpty = false := by
    cases w with
    | nil => exact absurd rfl hw
    | cons _ _ => rfl
  have hse : s.isEmpty = false := by
    cases s with
    | nil => exact absurd rfl hs
    | cons _ _ => rfl
  refine ⟨⟨?_, ?_⟩, ⟨?_, ?_⟩⟩
  · by_cases h : (P.WideCharToMultiByte w (toInt32 w.length) 0).1 ≤ 0
    · simp [ToUTF8, hwe, h]
    · simp [ToUTF8, hwe, h]
  · intro h
    have h2 : ¬ (P.WideCharToMultiByte w (toInt32 w.length) 0).1 ≤ 0 := by omega
    refine ⟨_, by simp only [ToUTF8, hwe, h2, if_false]; rfl, ?_⟩
    rw [writeInto_length, List.length_replicate]
    omega
  · by_cases h : (P.MultiByteToWideChar s (toInt32 s.length) 0).1 ≤ 0
    · simp [ToWString, hse, h]
    · simp [ToWString, hse, h]
  · intro h
    have h2 : ¬ (P.MultiByteToWideChar s (toInt32 s.length) 0).1 ≤ 0 := by omega
    refine ⟨_, by simp only [ToWString, hse, h2, if_false]; rfl, ?_⟩
    rw [writeInto_length, List.length_replicate]
    omega

/-- Witness of C10: over the standard codec the wide string `é` has the reported size 2, and the
narrow string of the single byte `0xC3` the reported size 1. -/
theorem C10_conversion_error_iff_witness :
    [0xE9] ≠ ([] : List Nat) ∧ [0xC3] ≠ ([] : List Nat)
    ∧ ∃ r, ToUTF8 stdCodec [0xE9] = .ok r ∧ (r.length : Int) = 2 :=
  ⟨by decide, by decide,
    (C10_conversion_error_iff stdCodec [0xE9] [0xC3] (by decide) (by decide)).1.2 (by decide)⟩

/-! ## Empty strings (claim C11) -/

/-- C11: `ToUTF8` of the empty wide string is the empty narrow string and `ToWString` of the
empty narrow string is the empty wide string; neither throws, whatever the platform conversion
reports. -/
theorem C11_empty_maps_to_empty (P : Codec) :
    ToUTF8 P [] = .ok [] ∧ ToWString P [] = .ok [] := by
  constructor
  · simp only [ToUTF8, List.isEmpty_nil, if_true]
  · simp only [ToWString, List.isEmpty_nil, if_true]

/-! ## IsRegistered as a query (claim C12) -/

theorem Registry.find_isSome_iff (r : Registry) (k : List Nat) :
    (Registry.find r k).isSome = true ↔ ∃ h, (k, h) ∈ r := by
  induction r with
  | nil => simp [Registry.find]
  | cons p t ih =>
    obtain ⟨k1, v1⟩ := p
    by_cases e : k1 = k
    · subst e
      simp only [Registry.find, if_true, Option.isSome_some, true_iff]
      exact ⟨v1, List.mem_cons_self _ _⟩
    · simp only [Registry.find, e, if_false, ih, List.mem_cons, Prod.mk.injEq]
      constructor
      · rintro ⟨h, hh⟩
        exact ⟨h, Or.inr hh⟩
      · rintro ⟨h, hh | hh⟩
        · exact absurd hh.1.symm e
        · exact ⟨h, hh⟩

/-- C12: for every narrow name `n` and every state, `IsRegistered(n)` returns true exactly when
the registry holds an entry whose key is the wide string `ToWString(n)` (equal character by
character), it returns false when `ToWString(n)` is no key, and the state after the call is the
state before it. -/
theorem C12_isRegistered_query {σ : Type} (P : Codec) (w : World σ) (n : List Nat) :
    ((IsRegistered.call P w n).1 = .ok true
        ↔ ∃ k, ToWString P n = .ok k ∧ ∃ h, (k, h) ∈ w.s_registeredClasses)
    ∧ ((IsRegistered.call P w n).1 = .ok false
        ↔ ∃ k, ToWString P n = .ok k ∧ ¬ ∃ h, (k, h) ∈ w.s_registeredClasses)
    ∧ (IsRegistered.call P w n).2 = w := by
  refine ⟨?_, ?_, rfl⟩
  · simp only [IsRegistered.call, IsRegistered]
    match hw : ToWString P n with
    | .error e => simp
    | .ok k =>
      simp only [Except.ok.injEq, exists_eq_left']
      exact Registry.find_isSome_iff _ _
  · simp only [IsRegistered.call, IsRegistered]
    match hw : ToWString P n with
    | .error e => simp
    | .ok k =>
      simp only [Except.ok.injEq, exists_eq_left', ← Registry.find_isSome_iff]
      simp

/-- The match of `IsRegistered` is case-sensitive: with the class `Wn` registered, the name
`wn` is reported as not registered. -/
theorem IsRegistered_case_sensitive :
    IsRegistered stdCodec ({ os := (), s_registeredClasses := [([0x57, 0x6E], 7)] } : World Unit)
        [0x57, 0x6E] = .ok true
    ∧ IsRegistered stdCodec ({ os := (), s_registeredClasses := [([0x57, 0x6E], 7)] } : World Unit)
        [0x77, 0x6E] = .ok false := by
  decide

/-! ## The cached primary monitor (claim C13) -/

/-- After a call the static pointer is not null and is the pointer that was returned. -/
theorem GetPrimaryMonitor_cached (api : Display) (st : MonitorState) :
    (GetPrimaryMonitor api st).2.primaryMonitor = (GetPrimaryMonitor api st).1
    ∧ (GetPrimaryMonitor api st).1.address ≠ 0 := by
  unfold GetPrimaryMonitor
  split_ifs with h
  · exact ⟨rfl, by simp⟩
  · exact ⟨rfl, h⟩

/-- A call on a state whose static pointer is set returns that pointer and changes nothing. -/
theorem GetPrimaryMonitor_of_set (api : Display) (st : MonitorState)
    (h : st.primaryMonitor.address ≠ 0) : GetPrimaryMonitor api st = (st.primaryMonitor, st) := by
  simp only [GetPrimaryMonitor, h, if_false]

theorem laterCalls_of_set (apis : List Display) (st : MonitorState)
    (h : st.primaryMonitor.address ≠ 0) : laterCalls st apis = st := by
  induction apis with
  | nil => rfl
  | cons api rest ih =>
    simp only [laterCalls, List.foldl_cons, GetPrimaryMonitor_of_set api st h] at ih ⊢
    exact ih

/-- C13: the snapshot is computed at most once.  After a first `GetPrimaryMonitor` call, with
any answers of the operating system, every later call, after any number of calls in between and
whatever display configuration the operating system then reports, returns the pointer the
first call returned, leaves the state (the cached object with its field values, and the number
of queries put to the operating system) as the first call left it, and the pointer still shares
the same object. -/
theorem C13_primary_monitor_cached_once (first : Display) (st : MonitorState)
    (between : List Display) (later : Display) :
    GetPrimaryMonitor later (laterCalls (GetPrimaryMonitor first st).2 between)
      = ((GetPrimaryMonitor first st).1, (GetPrimaryMonitor first st).2)
    ∧ (GetPrimaryMonitor later (laterCalls (GetPrimaryMonitor first st).2 between)).2.osQueries
      = (GetPrimaryMonitor first st).2.osQueries
    ∧ (GetPrimaryMonitor later (laterCalls (GetPrimaryMonitor first st).2 between)).2.deref
        (GetPrimaryMonitor later (laterCalls (GetPrimaryMonitor first st).2 between)).1
      = (GetPrimaryMonitor first st).2.deref (GetPrimaryMonitor first st).1 := by
  obtain ⟨h1, h2⟩ := GetPrimaryMonitor_cached first st
  have h3 : (GetPrimaryMonitor first st).2.primaryMonitor.address ≠ 0 := by
    rw [h1]; exact h2
  have e : GetPrimaryMonitor later (laterCalls (GetPrimaryMonitor first st).2 between)
      = ((GetPrimaryMonitor first st).1, (GetPrimaryMonitor first st).2) := by
    rw [laterCalls_of_set between _ h3, GetPrimaryMonitor_of_set later _ h3, h1]
  refine ⟨e, ?_, ?_⟩
  · rw [e]
  · rw [e]

/-- The first call from the initial state creates the object and gives its address; a display
that then changes does not show in a second call. -/
theorem GetPrimaryMonitor_first_then_changed :
    (GetPrimaryMonitor
        { MonitorFromWindow := fun _ _ => 1
          GetMonitorInfoW := fun _ => some ⟨⟨0, 0, 1920, 1080⟩, ⟨0, 0, 1920, 1040⟩, [0x44]⟩
          GetDpiForMonitor := fun _ _ => (96, 96)
          EnumDisplaySettingsW := fun _ _ => some ⟨32, 0, 60⟩ }
        MonitorState.initial).2
      = { primaryMonitor := ⟨1⟩
          objects := [{ MonitorName := [0x44]
                        WorkArea := ⟨0, 0, 1920, 1040⟩
                        Area := ⟨0, 0, 1920, 1080⟩
                        DPIScaling := ⟨96, 96⟩
                        Awareness := DPIAwareness.Unaware
                        Width := 1920
                        Height := 1080
                        RefreshRate := 60
                        BitsPerPixel := 32
                        IsPrimary := true
                        IsSupportHightDPI := true }]
          osQueries := 4 }
    ∧ GetPrimaryMonitor
        { MonitorFromWindow := fun _ _ => 1
          GetMonitorInfoW := fun _ => some ⟨⟨0, 0, 3840, 2160⟩, ⟨0, 0, 3840, 2100⟩, [0x45]⟩
          GetDpiForMonitor := fun _ _ => (192, 192)
          EnumDisplaySettingsW := fun _ _ => some ⟨32, 0, 144⟩ }
        (GetPrimaryMonitor
          { MonitorFromWindow := fun _ _ => 1
            GetMonitorInfoW := fun _ => some ⟨⟨0, 0, 1920, 1080⟩, ⟨0, 0, 1920, 1040⟩, [0x44]⟩
            GetDpiForMonitor := fun _ _ => (96, 96)
            EnumDisplaySettingsW := fun _ _ => some ⟨32, 0, 60⟩ }
          MonitorState.initial).2
      = GetPrimaryMonitor
          { MonitorFromWindow := fun _ _ => 1
            GetMonitorInfoW := fun _ => some ⟨⟨0, 0, 1920, 1080⟩, ⟨0, 0, 1920, 1040⟩, [0x44]⟩
            GetDpiForMonitor := fun _ _ => (96, 96)
            EnumDisplaySettingsW := fun _ _ => some ⟨32, 0, 60⟩ }
          MonitorState.initial := by
  constructor <;> decide

/-! ## The process DPI awareness (claims C14 to C16) -/

/-- A failed query gives `Unaware`, for every behaviour of the operating system. -/
theorem GetProcessDPIAwareness_failed {σ : Type} (api : Shcore σ) (os : σ)
    (h : (api.GetProcessDpiAwareness os).1 < 0) :
    GetProcessDPIAwareness api os = DPIAwareness.Unaware := by
  simp only [GetProcessDPIAwareness, FAILED, h, decide_True, if_true]

/-- A query that succeeds gives the value whose number is the number of the native level. -/
theorem GetProcessDPIAwareness_succeeded {σ : Type} (api : Shcore σ) (os : σ)
    (h : 0 ≤ (api.GetProcessDpiAwareness os).1) :
    GetProcessDPIAwareness api os = ⟨(api.GetProcessDpiAwareness os).2⟩ := by
  have h2 : ¬ (api.GetProcessDpiAwareness os).1 < 0 := by omega
  simp only [GetProcessDPIAwareness, FAILED, h2, decide_False, Bool.false_eq_true, if_false]

/-- C14 (the code at the failing input): the query succeeds and the operating system reports
`PROCESS_SYSTEM_DPI_AWARE`; `GetProcessDPIAwareness` returns `PerMonitorAware`, which is not the
level reported (`SystemAware`).  The `static_cast` keeps the number 1, and the enumeration
gives the number 1 to `PerMonitorAware`. -/
theorem C14_reported_level_shifted :
    (processDpi.GetProcessDpiAwareness (some PROCESS_SYSTEM_DPI_AWARE)).1 = S_OK
    ∧ GetProcessDPIAwareness processDpi (some PROCESS_SYSTEM_DPI_AWARE)
        = DPIAwareness.PerMonitorAware
    ∧ DPIAwareness.ofNative PROCESS_SYSTEM_DPI_AWARE = some DPIAwareness.SystemAware
    ∧ DPIAwareness.PerMonitorAware ≠ DPIAwareness.SystemAware := by
  decide

/-- C15 (the code at the failing input): the query succeeds and the operating system reports
`PROCESS_DPI_UNAWARE`; `GetProcessDPIAwareness` returns `SystemAware`, not `Unaware`, so the
result differs from the one of a failed query. -/
theorem C15_unaware_told_apart :
    (processDpi.GetProcessDpiAwareness (some PROCESS_DPI_UNAWARE)).1 = S_OK
    ∧ (processDpi.GetProcessDpiAwareness (some PROCESS_DPI_UNAWARE)).2 = PROCESS_DPI_UNAWARE
    ∧ GetProcessDPIAwareness processDpi (some PROCESS_DPI_UNAWARE) = DPIAwareness.SystemAware
    ∧ GetProcessDPIAwareness
        ({ GetProcessDpiAwareness := fun _ => (E_INVALIDARG, PROCESS_DPI_UNAWARE)
           SetProcessDpiAwareness := fun os _ => (E_INVALIDARG, os) } : Shcore Unit) ()
        = DPIAwareness.Unaware
    ∧ DPIAwareness.SystemAware ≠ DPIAwareness.Unaware := by
  decide

/-- The level `SetProcessDPIAwareness` passes is the number behind the enumeration value. -/
theorem SetProcessDPIAwareness_passes {σ : Type} (api : Shcore σ) (os : σ)
    (awareness : DPIAwareness) :
    SetProcessDPIAwareness api os awareness = (api.SetProcessDpiAwareness os awareness.val).2 :=
  rfl

/-- C16 (the code at the failing inputs): `SetProcessDPIAwareness(Unaware)` passes `-1`, which
the operating system refuses, so that nothing is set; `SetProcessDPIAwareness(SystemAware)`
sets `PROCESS_DPI_UNAWARE` and `SetProcessDPIAwareness(PerMonitorAware)` sets
`PROCESS_SYSTEM_DPI_AWARE`: none of the three sets the level of the same meaning. -/
theorem C16_set_level_shifted :
    DPIAwareness.Unaware.val = -1
    ∧ DPIAwareness.SystemAware.val = PROCESS_DPI_UNAWARE
    ∧ DPIAwareness.PerMonitorAware.val = PROCESS_SYSTEM_DPI_AWARE
    ∧ SetProcessDPIAwareness processDpi none DPIAwareness.Unaware = none
    ∧ SetProcessDPIAwareness processDpi none DPIAwareness.SystemAware = some PROCESS_DPI_UNAWARE
    ∧ SetProcessDPIAwareness processDpi none DPIAwareness.PerMonitorAware
        = some PROCESS_SYSTEM_DPI_AWARE
    ∧ DPIAwareness.ofNative PROCESS_DPI_UNAWARE ≠ some DPIAwareness.SystemAware
    ∧ DPIAwareness.ofNative PROCESS_SYSTEM_DPI_AWARE ≠ some DPIAwareness.PerMonitorAware := by
  decide

/-! ## The flag word of the message box (claims C17, C18, C20) -/

/-- C17: for every icon `i` and button set `b`, each of the eight `Show` overloads passes to the
dialog primitive the flag word that is the bitwise OR of the codes of `i` and `b`; the defaults
`None` and `OK` give 0; and `icon | icon` and `button | button` are the bitwise OR of the two
codes. -/
theorem C17_show_flag_word (api : User32Dialog) (windowHandle : Nat) (text title : List Nat)
    (i i2 : MessageBoxIcon) (b b2 : MessageBoxButton) :
    MessageBox.ShowW api text title i b = ⟨api.MessageBoxW 0 text title (i.val ||| b.val)⟩
    ∧ MessageBox.ShowA api text title i b = ⟨api.MessageBoxA 0 text title (i.val ||| b.val)⟩
    ∧ MessageBox.ShowWString api text title i b
        = ⟨api.MessageBoxW 0 (c_str text) (c_str title) (i.val ||| b.val)⟩
    ∧ MessageBox.ShowString api text title i b
        = ⟨api.MessageBoxA 0 (c_str text) (c_str title) (i.val ||| b.val)⟩
    ∧ MessageBox.ShowOwnedW api windowHandle text title i b
        = ⟨api.MessageBoxW windowHandle text title (i.val ||| b.val)⟩
    ∧ MessageBox.ShowOwnedA api windowHandle text title i b
        = ⟨api.MessageBoxA windowHandle text title (i.val ||| b.val)⟩
    ∧ MessageBox.ShowOwnedWString api windowHandle text title i b
        = ⟨api.MessageBoxW windowHandle (c_str text) (c_str title) (i.val ||| b.val)⟩
    ∧ MessageBox.ShowOwnedString api windowHandle text title i b
        = ⟨api.MessageBoxA windowHandle (c_str text) (c_str title) (i.val ||| b.val)⟩
    ∧ (MessageBox.ShowW echoFlags text title i b).val = ((i.val ||| b.val : Nat) : Int)
    ∧ MessageBoxIcon.None.val ||| MessageBoxButton.OK.val = 0
    ∧ (MessageBox.ShowW echoFlags text title MessageBoxIcon.None MessageBoxButton.OK).val = 0
    ∧ orIconIcon i i2 = i.val ||| i2.val
    ∧ orButtonButton b b2 = b.val ||| b2.val := by
  refine ⟨rfl, rfl, rfl, rfl, rfl, rfl, rfl, rfl, rfl, ?_, ?_, rfl, rfl⟩
  · decide
  · simp only [MessageBox.ShowW, echoFlags, orIconButton]
    decide

/-- C18 (as stated, refuted): `Platform.hpp` declares the cross-enum `operator|` for the order
(icon, button) only.  `Icon::Warning | Button::YesNo` is `0x34`, while
`Button::YesNo | Icon::Warning` has no operator to take it. -/
theorem C18_or_commutative_counterexample :
    operatorOr (.icon MessageBoxIcon.Warning) (.button MessageBoxButton.YesNo) = some 0x34
    ∧ operatorOr (.button MessageBoxButton.YesNo) (.icon MessageBoxIcon.Warning) = none
    ∧ operatorOr (.button MessageBoxButton.YesNo) (.icon MessageBoxIcon.Warning)
        ≠ operatorOr (.icon MessageBoxIcon.Warning) (.button MessageBoxButton.YesNo) := by
  decide

/-- C18 (amended): combination is commutative and associative under OR as raw numeric flags.
For every icon `i` and button set `b`, `i | b` is the code of `b` OR the code of `i` (for
`Icon::Warning` and `Button::YesNo` both are `0x34`); `icon | icon` and `button | button` are
commutative; OR of three codes does not depend on the grouping; and the cross-enum overload
exists for the order (icon, button), not for the order (button, icon). -/
theorem C18_or_commutative (i i2 : MessageBoxIcon) (b b2 : MessageBoxButton) :
    orIconButton i b = b.val ||| i.val
    ∧ orIconButton MessageBoxIcon.Warning MessageBoxButton.YesNo
        = MessageBoxButton.YesNo.val ||| MessageBoxIcon.Warning.val
    ∧ orIconButton MessageBoxIcon.Warning MessageBoxButton.YesNo = 0x34
    ∧ orIconIcon i i2 = orIconIcon i2 i
    ∧ orButtonButton b b2 = orButtonButton b2 b
    ∧ (orIconIcon i i2) ||| b.val = i.val ||| (orIconButton i2 b)
    ∧ (orIconButton i b) ||| b2.val = i.val ||| (orButtonButton b b2)
    ∧ operatorOr (.icon i) (.button b) = some (b.val ||| i.val)
    ∧ operatorOr (.button b) (.icon i) = none := by
  refine ⟨Nat.lor_comm _ _, by decide, by decide, Nat.lor_comm _ _, Nat.lor_comm _ _,
    Nat.lor_assoc _ _ _, Nat.lor_assoc _ _ _, ?_, rfl⟩
  simp only [operatorOr, orIconButton, Nat.lor_comm]

/-- C20: for every icon among `None`, `Information`, `Warning`, `Error`, `Question` and every
button set among `OK`, `OKCancel`, `YesNo`, `YesNoCancel`, the word `i | b` masked with `0xF0` is
the code of `i` and masked with `0x0F` the code of `b`; hence two combinations are equal only
when the icons are equal and the button sets are equal. -/
theorem C20_or_loses_nothing (i i2 : MessageBoxIcon) (b b2 : MessageBoxButton)
    (hi : i ∈ [MessageBoxIcon.None, MessageBoxIcon.Information, MessageBoxIcon.Warning,
      MessageBoxIcon.Error, MessageBoxIcon.Question])
    (hb : b ∈ [MessageBoxButton.OK, MessageBoxButton.OKCancel, MessageBoxButton.YesNo,
      MessageBoxButton.YesNoCancel])
    (hi2 : i2 ∈ [MessageBoxIcon.None, MessageBoxIcon.Information, MessageBoxIcon.Warning,
      MessageBoxIcon.Error, MessageBoxIcon.Question])
    (hb2 : b2 ∈ [MessageBoxButton.OK, MessageBoxButton.OKCancel, MessageBoxButton.YesNo,
      MessageBoxButton.YesNoCancel]) :
    orIconButton i b &&& 0xF0 = i.val
    ∧ orIconButton i b &&& 0x0F = b.val
    ∧ (orIconButton i b = orIconButton i2 b2 → i = i2 ∧ b = b2) := by
  have mask : ∀ j ∈ [MessageBoxIcon.None, MessageBoxIcon.Information, MessageBoxIcon.Warning,
      MessageBoxIcon.Error, MessageBoxIcon.Question],
      ∀ c ∈ [MessageBoxButton.OK, MessageBoxButton.OKCancel, MessageBoxButton.YesNo,
        MessageBoxButton.YesNoCancel],
      orIconButton j c &&& 0xF0 = j.val ∧ orIconButton j c &&& 0x0F = c.val := by
    decide
  obtain ⟨m1, m2⟩ := mask i hi b hb
  obtain ⟨m3, m4⟩ := mask i2 hi2 b2 hb2
  refine ⟨m1, m2, fun e => ?_⟩
  rw [e] at m1 m2
  constructor
  · cases i; cases i2
    simp only [MessageBoxIcon.mk.injEq]
    exact m1.symm.trans m3
  · cases b; cases b2
    simp only [MessageBoxButton.mk.injEq]
    exact m2.symm.trans m4

/-- Witness of C20: `Warning | YesNo` against `Error | YesNoCancel`. -/
theorem C20_or_loses_nothing_witness :
    orIconButton MessageBoxIcon.Warning MessageBoxButton.YesNo &&& 0xF0 = 0x30
    ∧ orIconButton MessageBoxIcon.Warning MessageBoxButton.YesNo &&& 0x0F = 4 :=
  ⟨(C20_or_loses_nothing MessageBoxIcon.Warning MessageBoxIcon.Error MessageBoxButton.YesNo
      MessageBoxButton.YesNoCancel (by decide) (by decide) (by decide) (by decide)).1,
   (C20_or_loses_nothing MessageBoxIcon.Warning MessageBoxIcon.Error MessageBoxButton.YesNo
      MessageBoxButton.YesNoCancel (by decide) (by decide) (by decide) (by decide)).2.1⟩

/-! ## The frame of Register and Unregister (claim C19) -/

/-- C19: `Register(c)` and `Unregister(c)` touch only the registry entry under the name of `c`.
For every other name the stored handle, and with it the presence of an entry, is after the call
what it was before, whether the call succeeds or throws; and after a successful `Register` the
handle stored under the name of `c` is the module of `c`, whatever was stored before. -/
theorem C19_registry_frame {σ : Type} (api : Win32 σ) (w : World σ) (c : WindowClass)
    (k : List Nat) (hk : k ≠ c.GetName) :
    Registry.find (Register api w c).2.s_registeredClasses k
        = Registry.find w.s_registeredClasses k
    ∧ Registry.find (Unregister api w c).2.s_registeredClasses k
        = Registry.find w.s_registeredClasses k
    ∧ ((Register api w c).1 = .ok () →
        Registry.find (Register api w c).2.s_registeredClasses c.GetName = some c.GetInstance) := by
  simp only [WindowClass.GetName, WindowClass.GetInstance] at hk ⊢
  refine ⟨?_, ?_, ?_⟩
  · rcases Register_cases api w c with (⟨_, e⟩ | ⟨_, _, e⟩) | ⟨_, _, e⟩
    · rw [e]
    · rw [e]
    · rw [e]
      exact Registry.find_assign_ne _ _ hk
  · rcases Unregister_cases api w c with ⟨_, e⟩ | ⟨_, e⟩
    · rw [e]
    · rw [e]
      exact Registry.find_erase_ne _ hk
  · intro hr
    rcases Register_cases api w c with (⟨_, e⟩ | ⟨_, _, e⟩) | ⟨_, _, e⟩
    · rw [e] at hr; simp at hr
    · rw [e] at hr; simp at hr
    · rw [e]
      exact Registry.find_assign_self _ _ _

/-- Witness of C19: the registry holds `A` for module 7 and `Wn` for module 9; `Wn` is registered
for module 7, which keeps the entry `A` and replaces the handle of `Wn`. -/
theorem C19_registry_frame_witness :
    Registry.find
        (Register (classTable 65539 false)
          { os := [([0x57, 0x4E], 9)], s_registeredClasses := [([0x41], 7), ([0x57, 0x6E], 9)] }
          ⟨[0x57, 0x6E], 7, 0, 0⟩).2.s_registeredClasses [0x41] = some 7
    ∧ Registry.find
        (Register (classTable 65539 false)
          { os := [([0x57, 0x4E], 9)], s_registeredClasses := [([0x41], 7), ([0x57, 0x6E], 9)] }
          ⟨[0x57, 0x6E], 7, 0, 0⟩).2.s_registeredClasses [0x57, 0x6E] = some 7 :=
  ⟨(C19_registry_frame (classTable 65539 false)
      { os := [([0x57, 0x4E], 9)], s_registeredClasses := [([0x41], 7), ([0x57, 0x6E], 9)] }
      ⟨[0x57, 0x6E], 7, 0, 0⟩ [0x41] (by decide)).1,
   (C19_registry_frame (classTable 65539 false)
      { os := [([0x57, 0x4E], 9)], s_registeredClasses := [([0x41], 7), ([0x57, 0x6E], 9)] }
      ⟨[0x57, 0x6E], 7, 0, 0⟩ [0x41] (by decide)).2.2 (by decide)⟩

/-! ## Width and height of the snapshot (claim C21) -/

/-- The object behind the pointer that a call on a null static pointer returns is the snapshot
taken by that call. -/
theorem GetPrimaryMonitor_deref_first (api : Display) (st : MonitorState)
    (hst : st.primaryMonitor.address = 0) :
    (GetPrimaryMonitor api st).2.deref (GetPrimaryMonitor api st).1
      = some (snapshotPrimaryMonitor api).1 := by
  simp only [GetPrimaryMonitor, hst, if_true, MonitorState.deref, Nat.add_sub_cancel]
  simp

/-- The snapshot when the information is obtained: the area is the rectangle the operating
system reported, the width and the height are its differences converted to `uint32_t`, and
the primary flag is set. -/
theorem snapshot_obtained (api : Display) (mi : MONITORINFOEXW)
    (hm : api.MonitorFromWindow 0 MONITOR_DEFAULTTOPRIMARY ≠ 0)
    (hi : api.GetMonitorInfoW (api.MonitorFromWindow 0 MONITOR_DEFAULTTOPRIMARY) = some mi) :
    (snapshotPrimaryMonitor api).1.Area
        = { Top := mi.rcMonitor.top, Left := mi.rcMonitor.left
            Right := mi.rcMonitor.right, Bottom := mi.rcMonitor.bottom }
    ∧ (snapshotPrimaryMonitor api).1.Width = toUInt32 (mi.rcMonitor.right - mi.rcMonitor.left)
    ∧ (snapshotPrimaryMonitor api).1.Height = toUInt32 (mi.rcMonitor.bottom - mi.rcMonitor.top)
    ∧ (snapshotPrimaryMonitor api).1.IsPrimary = true := by
  simp only [snapshotPrimaryMonitor, hm, ne_eq, not_false_eq_true, if_true, hi]
  cases api.EnumDisplaySettingsW (c_str mi.szDevice) ENUM_CURRENT_SETTINGS with
  | none => exact ⟨rfl, rfl, rfl, rfl⟩
  | some devMode => exact ⟨rfl, rfl, rfl, rfl⟩

/-- The snapshot when the information is not obtained: the default object. -/
theorem snapshot_not_obtained (api : Display) (h : ¬ monitorInfoObtained api) :
    (snapshotPrimaryMonitor api).1 = {} := by
  unfold monitorInfoObtained at h
  by_cases hm : api.MonitorFromWindow 0 MONITOR_DEFAULTTOPRIMARY = 0
  · simp only [snapshotPrimaryMonitor, hm, ne_eq, not_true_eq_false, if_false]
  · have hn : api.GetMonitorInfoW (api.MonitorFromWindow 0 MONITOR_DEFAULTTOPRIMARY) = none := by
      cases hg : api.GetMonitorInfoW (api.MonitorFromWindow 0 MONITOR_DEFAULTTOPRIMARY) with
      | none => rfl
      | some mi => exact absurd ⟨hm, by rw [hg]; rfl⟩ h
    simp only [snapshotPrimaryMonitor, hm, ne_eq, not_false_eq_true, if_true, hn]

theorem toUInt32_emod (i : Int) : ((toUInt32 i : Nat) : Int) = i % 2 ^ 32 := by
  unfold toUInt32
  exact Int.toNat_of_nonneg (Int.emod_nonneg _ (by norm_num))

theorem toUInt32_exact {a b : Int} (ha : IsLONG a) (hb : IsLONG b) (h : a ≤ b) :
    ((toUInt32 (b - a) : Nat) : Int) = b - a := by
  unfold IsLONG at ha hb
  rw [toUInt32_emod]
  apply Int.emod_eq_of_lt
  · omega
  · omega

/-- C21: the snapshot made by the first `GetPrimaryMonitor` call.  `IsPrimary` is true exactly
when the primary monitor's information is obtained.  In that case `Area` is the rectangle the
operating system reported, `Width` is `(Area.Right - Area.Left) mod 2^32` and `Height` is
`(Area.Bottom - Area.Top) mod 2^32`, which are the exact differences whenever the coordinates
(values of type `long`) have `Right >= Left` and `Bottom >= Top`.  Otherwise `Width` and `Height`
stay 0. -/
theorem C21_snapshot_width_height (api : Display) (st : MonitorState)
    (hst : st.primaryMonitor.address = 0) :
    ∃ info : MonitorInfo,
      (GetPrimaryMonitor api st).2.deref (GetPrimaryMonitor api st).1 = some info
      ∧ (info.IsPrimary = true ↔ monitorInfoObtained api)
      ∧ (monitorInfoObtained api →
          (∀ mi, api.GetMonitorInfoW (api.MonitorFromWindow 0 MONITOR_DEFAULTTOPRIMARY) = some mi →
            info.Area.Left = mi.rcMonitor.left ∧ info.Area.Right = mi.rcMonitor.right
            ∧ info.Area.Top = mi.rcMonitor.top ∧ info.Area.Bottom = mi.rcMonitor.bottom)
          ∧ (info.Width : Int) = (info.Area.Right - info.Area.Left) % 2 ^ 32
          ∧ (info.Height : Int) = (info.Area.Bottom - info.Area.Top) % 2 ^ 32
          ∧ (IsLONG info.Area.Left → IsLONG info.Area.Right → info.Area.Left ≤ info.Area.Right →
              (info.Width : Int) = info.Area.Right - info.Area.Left)
          ∧ (IsLONG info.Area.Top → IsLONG info.Area.Bottom → info.Area.Top ≤ info.Area.Bottom →
              (info.Height : Int) = info.Area.Bottom - info.Area.Top))
      ∧ (¬ monitorInfoObtained api → info.Width = 0 ∧ info.Height = 0) := by
  refine ⟨(snapshotPrimaryMonitor api).1, GetPrimaryMonitor_deref_first api st hst, ?_, ?_, ?_⟩
  · constructor
    · intro hp
      by_contra hn
      rw [snapshot_not_obtained api hn] at hp
      exact absurd hp (by decide)
    · rintro ⟨hm, hs⟩
      obtain ⟨mi, hi⟩ := Option.isSome_iff_exists.mp hs
      exact (snapshot_obtained api mi hm hi).2.2.2
  · rintro ⟨hm, hs⟩
    obtain ⟨mi, hi⟩ := Option.isSome_iff_exists.mp hs
    obtain ⟨hA, hW, hH, _⟩ := snapshot_obtained api mi hm hi
    rw [hA, hW, hH]
    refine ⟨?_, toUInt32_emod _, toUInt32_emod _, ?_, ?_⟩
    · intro mi2 hi2
      rw [hi] at hi2
      cases hi2
      exact ⟨rfl, rfl, rfl, rfl⟩
    · intro ha hb hle
      exact toUInt32_exact ha hb hle
    · intro ha hb hle
      exact toUInt32_exact ha hb hle
  · intro hn
    rw [snapshot_not_obtained api hn]
    exact ⟨rfl, rfl⟩

/-- Witness of C21: from the initial state, a monitor at `(-1920, 0)`-`(0, 1080)` gives the
snapshot width 1920 and height 1080 with the primary flag set. -/
theorem C21_snapshot_width_height_witness :
    MonitorState.initial.primaryMonitor.address = 0
    ∧ ∃ info : MonitorInfo,
      (GetPrimaryMonitor
          { MonitorFromWindow := fun _ _ => 1
            GetMonitorInfoW := fun _ =>
              some ⟨⟨-1920, 0, 0, 1080⟩, ⟨-1920, 0, 0, 1040⟩, [0x44]⟩
            GetDpiForMonitor := fun _ _ => (96, 96)
            EnumDisplaySettingsW := fun _ _ => none }
          MonitorState.initial).2.deref
        (GetPrimaryMonitor
          { MonitorFromWindow := fun _ _ => 1
            GetMonitorInfoW := fun _ =>
              some ⟨⟨-1920, 0, 0, 1080⟩, ⟨-1920, 0, 0, 1040⟩, [0x44]⟩
            GetDpiForMonitor := fun _ _ => (96, 96)
            EnumDisplaySettingsW := fun _ _ => none }
          MonitorState.initial).1 = some info
      ∧ info.IsPrimary = true ∧ info.Width = 1920 ∧ info.Height = 1080 := by
  refine ⟨rfl, ?_⟩
  obtain ⟨info, hd, hp, hw, _⟩ := C21_snapshot_width_height
    { MonitorFromWindow := fun _ _ => 1
      GetMonitorInfoW := fun _ => some ⟨⟨-1920, 0, 0, 1080⟩, ⟨-1920, 0, 0, 1040⟩, [0x44]⟩
      GetDpiForMonitor := fun _ _ => (96, 96)
      EnumDisplaySettingsW := fun _ _ => none }
    MonitorState.initial rfl
  have ho : monitorInfoObtained
      { MonitorFromWindow := fun _ _ => 1
        GetMonitorInfoW := fun _ => some ⟨⟨-1920, 0, 0, 1080⟩, ⟨-1920, 0, 0, 1040⟩, [0x44]⟩
        GetDpiForMonitor := fun _ _ => (96, 96)
        EnumDisplaySettingsW := fun _ _ => none } := by
    decide
  obtain ⟨hA, _, _, hW, hH⟩ := hw ho
  obtain ⟨hl, hr, ht, hb⟩ := hA _ rfl
  have hl2 : info.Area.Left = -1920 := hl
  have hr2 : info.Area.Right = 0 := hr
  have ht2 : info.Area.Top = 0 := ht
  have hb2 : info.Area.Bottom = 1080 := hb
  refine ⟨info, hd, hp.mpr ho, ?_, ?_⟩
  · have := hW (by rw [hl2]; decide) (by rw [hr2]; decide) (by rw [hl2, hr2]; decide)
    rw [hl2, hr2] at this
    omega
  · have := hH (by rw [ht2]; decide) (by rw [hb2]; decide) (by rw [ht2, hb2]; decide)
    rw [ht2, hb2] at this
    omega

/-- A rectangle whose right edge lies left of its left edge: the width is the difference
plus `2^32`. -/
theorem snapshot_width_wraps :
    (snapshotPrimaryMonitor
        { MonitorFromWindow := fun _ _ => 1
          GetMonitorInfoW := fun _ => some ⟨⟨10, 0, 0, 1080⟩, ⟨10, 0, 0, 1040⟩, [0x44]⟩
          GetDpiForMonitor := fun _ _ => (96, 96)
          EnumDisplaySettingsW := fun _ _ => none }).1.Width = 4294967286 := by
  decide

end WinCore
